import Mathlib

/-!
# PrayerCalc (`www/js/prayer.js`): a shallow embedding

JavaScript numbers are modelled by an ordered field `α` with a floor function;
arithmetic is exact, so the rounding of IEEE doubles is not part of the model.
The functions of the `Math` object that the code calls are the fields of a
record `JSMath α`; statements that do not depend on trigonometry are proved
for every field and every such record, and the astronomy is evaluated over
`ℝ` with the real functions (`realMath`).

The non-finite values that the code tests for have their own constructors:
`Val` (for `h === null || isNaN(h)`) and `JSQuot` (for the quotient `cosH`,
which is infinite or `NaN` when its denominator is zero).  The tables
`METHODS` and `COUNTRY_TZ` are modelled by their own keys.

The main statements, at the end of the file, carry the labels `C1` to `C10`.
-/

namespace PrayerCalc

/-- A value tested by `h === null || isNaN(h)`: `null`, `NaN` or a finite number. -/
inductive Val (α : Type) where
  | null : Val α
  | nan : Val α
  | num (x : α) : Val α
  deriving DecidableEq

/-- The result of a JavaScript division: a finite quotient, an infinity
(non-zero numerator over zero) or `NaN` (zero over zero). -/
inductive JSQuot (α : Type) where
  | fin (x : α) : JSQuot α
  | inf : JSQuot α
  | nan : JSQuot α
  deriving DecidableEq

/-- The direction argument of `angleTime`: the strings `'ccw'` and `'cw'`. -/
inductive Dir where
  | ccw : Dir
  | cw : Dir
  deriving DecidableEq

/-- The functions and constants of the JavaScript `Math` object used by the
code (arguments and results in radians). -/
structure JSMath (α : Type) where
  pi : α
  sin : α → α
  cos : α → α
  tan : α → α
  asin : α → α
  acos : α → α
  atan : α → α
  atan2 : α → α → α

/-- An entry of `METHODS`: `{ fajr, isha, ishaMin }`, `none` for `null`. -/
structure Method (α : Type) where
  fajr : α
  isha : Option α
  ishaMin : Option α

/-- The fields of a `Date` read by `toJD`: `getFullYear()`, `getMonth()`
(0-based) and `getDate()`. -/
structure JSDate where
  fullYear : ℤ
  month : ℤ
  date : ℤ
  deriving DecidableEq

/-- The object returned by `sunPos`: `{ D, EqT }`. -/
structure SunPos (α : Type) where
  D : α
  EqT : α

/-- The six fractional-hour values of `calculate`, before formatting. -/
structure RawTimes (α : Type) where
  fajr : Val α
  sunrise : Val α
  dhuhr : Val α
  asr : Val α
  maghrib : Val α
  isha : Val α

/-- The object returned by `calculate`. -/
structure Times where
  Fajr : String
  Sunrise : String
  Dhuhr : String
  Asr : String
  Maghrib : String
  Isha : String
  deriving DecidableEq

section Core

variable {α : Type} [LinearOrderedField α] [FloorRing α]

/-- `const RAD = Math.PI / 180`. -/
def RAD (m : JSMath α) : α := m.pi / 180

/-- `const DEG = 180 / Math.PI`. -/
def DEG (m : JSMath α) : α := 180 / m.pi

/-- The table `METHODS`, by key. -/
def METHODS (k : ℤ) : Option (Method α) :=
  match k with
  | 1 => some ⟨18, some 17, none⟩
  | 2 => some ⟨15, some 15, none⟩
  | 3 => some ⟨18, some 17, none⟩
  | 4 => some ⟨18.5, none, some 90⟩
  | 5 => some ⟨19.5, some 17.5, none⟩
  | 7 => some ⟨17.7, some 14, none⟩
  | 8 => some ⟨19.5, none, some 90⟩
  | 9 => some ⟨18, some 17.5, none⟩
  | 10 => some ⟨18, none, some 90⟩
  | 11 => some ⟨20, some 18, none⟩
  | 12 => some ⟨12, some 12, none⟩
  | 13 => some ⟨18, some 17, none⟩
  | _ => none

/-- The entry `METHODS[5]`. -/
def method5 : Method α := ⟨19.5, some 17.5, none⟩

/-- The table `COUNTRY_TZ` by its own keys: `none` for an absent key
(`undefined`), `some none` for `null`, `some (some z)` for a fixed offset. -/
def COUNTRY_TZ (c : String) : Option (Option α) :=
  if c = "Egypt" then some none
  else if c = "Saudi Arabia" then some (some 3)
  else if c = "United Arab Emirates" then some (some 4)
  else if c = "Kuwait" then some (some 3)
  else if c = "Qatar" then some (some 3)
  else if c = "Bahrain" then some (some 3)
  else if c = "Oman" then some (some 4)
  else if c = "Jordan" then some none
  else if c = "Lebanon" then some none
  else if c = "Palestine" then some none
  else if c = "Syria" then some none
  else if c = "Iraq" then some (some 3)
  else if c = "Yemen" then some (some 3)
  else if c = "Morocco" then some none
  else if c = "Algeria" then some (some 1)
  else if c = "Tunisia" then some (some 1)
  else if c = "Libya" then some (some 2)
  else if c = "Sudan" then some (some 3)
  else none

/-- `toJD(date)`; `Math.floor` is the floor of the field. -/
def toJD (date : JSDate) : α :=
  let Y : α := (date.fullYear : α)
  let M : α := (date.month : α) + 1
  let D : α := (date.date : α)
  367 * Y - (⌊7 * (Y + (⌊(M + 9) / 12⌋ : α)) / 4⌋ : α) + (⌊275 * M / 9⌋ : α) + D + 1721013.5

/-- `sunPos(jd)`. -/
def sunPos (m : JSMath α) (jd : α) : SunPos α :=
  let d := jd - 2451545.0
  let g := 357.529 + 0.98560028 * d
  let q := 280.459 + 0.98564736 * d
  let L := q + 1.915 * m.sin (g * RAD m) + 0.020 * m.sin (2 * g * RAD m)
  let e := 23.439 - 0.00000036 * d
  let RA := m.atan2 (m.cos (e * RAD m) * m.sin (L * RAD m)) (m.cos (L * RAD m)) * DEG m
  let D := m.asin (m.sin (e * RAD m) * m.sin (L * RAD m)) * DEG m
  let EqT := (q - RA) / 15
  ⟨D, EqT⟩

/-- `midDay(jd, lon, tz)`. -/
def midDay (m : JSMath α) (jd lon tz : α) : α :=
  12 - (sunPos m jd).EqT - lon / 15 + tz

/-- JavaScript `a / b` on finite operands. -/
def jsDiv (a b : α) : JSQuot α :=
  if b = 0 then (if a = 0 then JSQuot.nan else JSQuot.inf) else JSQuot.fin (a / b)

/-- The quotient `cosH` of `angleTime`. -/
def cosH (m : JSMath α) (decl lat angle : α) : JSQuot α :=
  jsDiv (-m.sin (angle * RAD m) - m.sin (lat * RAD m) * m.sin (decl * RAD m))
    (m.cos (lat * RAD m) * m.cos (decl * RAD m))

/-- `angleTime(decl, lat, angle, md, dir)`.  An infinite `cosH` has
`Math.abs(cosH) > 1`; a `NaN` one has not, and `Math.acos(NaN)` is `NaN`. -/
def angleTime (m : JSMath α) (decl lat angle md : α) (dir : Dir) : Val α :=
  match cosH m decl lat angle with
  | JSQuot.inf => Val.null
  | JSQuot.nan => Val.nan
  | JSQuot.fin c =>
    if |c| > 1 then Val.null
    else
      let h := m.acos c * DEG m / 15
      Val.num (if dir = Dir.ccw then md - h else md + h)

/-- The angle computed by `asrTime`; `1 / 0` is `+Infinity`, whose `Math.atan`
is `Math.PI / 2`. -/
def asrAngle (m : JSMath α) (decl lat factor : α) : α :=
  let x := factor + m.tan (|lat - decl| * RAD m)
  if x = 0 then -(m.pi / 2) * DEG m else -m.atan (1 / x) * DEG m

/-- `asrTime(decl, lat, factor, md)`. -/
def asrTime (m : JSMath α) (decl lat factor md : α) : Val α :=
  angleTime m decl lat (asrAngle m decl lat factor) md Dir.cw

/-- JavaScript `a % b` on finite operands: the remainder of the division
truncated toward zero. -/
def jsRem (a b : α) : α :=
  a - b * (if 0 ≤ a / b then (⌊a / b⌋ : α) else (⌈a / b⌉ : α))

/-- `s.padStart(n, c)` for a one-character pad string. -/
def padStart (s : String) (n : ℕ) (c : Char) : String :=
  String.mk (List.replicate (n - s.length) c) ++ s

/-- `String(n)` for an integer-valued number. -/
def jsString (n : ℤ) : String := toString n

/-- `toHHMM(h)`; `Math.round(x)` is `⌊x + 1/2⌋`. -/
def toHHMM (h : Val α) : String :=
  match h with
  | Val.null => "00:00"
  | Val.nan => "00:00"
  | Val.num h0 =>
    let h1 := jsRem (jsRem h0 24 + 24) 24
    let hh : ℤ := ⌊h1⌋
    let mm : ℤ := ⌊(h1 - (hh : α)) * 60 + 1 / 2⌋
    let fh : ℤ := if mm = 60 then hh + 1 else hh
    let mm1 : ℤ := if mm = 60 then 0 else mm
    padStart (jsString (fh % 24)) 2 '0' ++ ":" ++ padStart (jsString mm1) 2 '0'

/-- The coercion of `null` to `0` in `angle * RAD`. -/
def toNumber (o : Option α) : α := o.getD 0

/-- Truthiness of `m.ishaMin`: neither `null` nor `0`. -/
def truthy (o : Option α) : Bool :=
  match o with
  | none => false
  | some x => decide (x ≠ 0)

/-- The method selected by `METHODS[methodNum] || METHODS[5]`; `none` is a
missing identifier. -/
def resolveMethod (methodNum : Option ℤ) : Method α :=
  match methodNum with
  | none => method5
  | some k => (METHODS k).getD method5

/-- The offset `tz` of `calculate`: `tzFixed` unless it is `null` or
`undefined`, else `-(new Date().getTimezoneOffset() / 60)`; `hostOffsetMin`
is the value of `getTimezoneOffset()` on the host. -/
def resolveTz (hostOffsetMin : α) (countryEn : String) : α :=
  match COUNTRY_TZ countryEn with
  | some (some z) => z
  | _ => -(hostOffsetMin / 60)

/-- The Isha value of `calculate`. -/
def ishaOf (m : JSMath α) (me : Method α) (decl lat md : α) (maghrib : Val α) : Val α :=
  match truthy me.ishaMin, maghrib with
  | true, Val.num x => Val.num (x + toNumber me.ishaMin / 60)
  | true, Val.nan => Val.nan
  | _, _ => angleTime m decl lat (toNumber me.isha) md Dir.cw

/-- The six values of `calculate` before formatting, for a resolved method
and offset. -/
def rawTimes (m : JSMath α) (date : JSDate) (lat lon : α) (me : Method α) (tz : α) :
    RawTimes α :=
  let jd : α := toJD date
  let decl := (sunPos m jd).D
  let md := midDay m jd lon tz
  let maghrib := angleTime m decl lat 0.833 md Dir.cw
  { fajr := angleTime m decl lat me.fajr md Dir.ccw
    sunrise := angleTime m decl lat 0.833 md Dir.ccw
    dhuhr := Val.num (md + 0.0333)
    asr := asrTime m decl lat 1 md
    maghrib := maghrib
    isha := ishaOf m me decl lat md maghrib }

/-- The values of `calculate` before formatting. -/
def calcRaw (m : JSMath α) (hostOffsetMin : α) (date : JSDate) (lat lon : α)
    (methodNum : Option ℤ) (countryEn : String) : RawTimes α :=
  rawTimes m date lat lon (resolveMethod methodNum) (resolveTz hostOffsetMin countryEn)

/-- The formatting step of `calculate`: `toHHMM` on each of the six values. -/
def formatTimes (r : RawTimes α) : Times :=
  { Fajr := toHHMM r.fajr
    Sunrise := toHHMM r.sunrise
    Dhuhr := toHHMM r.dhuhr
    Asr := toHHMM r.asr
    Maghrib := toHHMM r.maghrib
    Isha := toHHMM r.isha }

/-- `calculate(date, lat, lon, methodNum, countryEn)`. -/
def calculate (m : JSMath α) (hostOffsetMin : α) (date : JSDate) (lat lon : α)
    (methodNum : Option ℤ) (countryEn : String) : Times :=
  formatTimes (calcRaw m hostOffsetMin date lat lon methodNum countryEn)

end Core

/-! ## Spec-side definitions for the formatter -/

/-- Spec-side rendering: the two decimal digits of `n`. -/
def twoDigits (n : ℕ) : String := String.mk [Nat.digitChar (n / 10), Nat.digitChar (n % 10)]

section FormatterSpec

variable {α : Type} [LinearOrderedField α] [FloorRing α]

/-- Spec-side `h mod 24`: `h` reduced into `[0, 24)`. -/
def mod24 (h : α) : α := h - 24 * (⌊h / 24⌋ : α)

/-- Spec-side `T mod 1440` with `T = ⌊60·(h mod 24) + 1/2⌋`. -/
def minuteOfDay (h : α) : ℤ := ⌊60 * mod24 h + 1 / 2⌋ % 1440

/-- Spec-side zero-padded `HH:MM` rendering of a minute count. -/
def renderMinutes (t : ℤ) : String :=
  twoDigits (t / 60).toNat ++ ":" ++ twoDigits (t % 60).toNat

end FormatterSpec

/-! ## Spec-side definitions for the calendar conversion -/

/-- Spec-side leap-year rule of the Gregorian calendar. -/
def isLeapYear (y : ℤ) : Bool := (y % 4 = 0 && y % 100 != 0) || y % 400 = 0

/-- Spec-side length of month `m` (1..12) of year `y`. -/
def daysInMonth (y m : ℤ) : ℤ :=
  if m = 2 then (if isLeapYear y then 29 else 28)
  else if m = 4 ∨ m = 6 ∨ m = 9 ∨ m = 11 then 30 else 31

/-- Spec-side validity of the calendar date held by a `Date`. -/
def validDate (dt : JSDate) : Prop :=
  0 ≤ dt.month ∧ dt.month ≤ 11 ∧ 1 ≤ dt.date ∧ dt.date ≤ daysInMonth dt.fullYear (dt.month + 1)

instance (dt : JSDate) : Decidable (validDate dt) := by
  unfold validDate; infer_instance

/-- Spec-side standard conversion of a Gregorian date (month 1..12) to the
Julian Day Number of its noon. -/
def gregorianJDN (y m d : ℤ) : ℤ :=
  let a := (14 - m) / 12
  let y1 := y + 4800 - a
  let m1 := m + 12 * a - 3
  d + (153 * m1 + 2) / 5 + 365 * y1 + y1 / 4 - y1 / 100 + y1 / 400 - 32045

/-- Spec-side Julian Day of 00:00 of the date: half a day before its noon. -/
def standardJD {α : Type} [LinearOrderedField α] (dt : JSDate) : α :=
  (gregorianJDN dt.fullYear (dt.month + 1) dt.date : α) - 1 / 2

/-- A key that orders dates chronologically: `10000·Y + 100·M + D`. -/
def dateKey (dt : JSDate) : ℤ := 10000 * dt.fullYear + 100 * (dt.month + 1) + dt.date

/-! ## The intermediate quantities of `sunPos` -/

section SunQuantities

variable {α : Type} [LinearOrderedField α]

/-- The constant `g` of `sunPos`. -/
def meanAnomaly (jd : α) : α := 357.529 + 0.98560028 * (jd - 2451545.0)

/-- The constant `q` of `sunPos`. -/
def meanLongitude (jd : α) : α := 280.459 + 0.98564736 * (jd - 2451545.0)

/-- The constant `L` of `sunPos`. -/
def eclipticLongitude (m : JSMath α) (jd : α) : α :=
  meanLongitude jd + 1.915 * m.sin (meanAnomaly jd * RAD m)
    + 0.020 * m.sin (2 * meanAnomaly jd * RAD m)

/-- The constant `e` of `sunPos`. -/
def obliquity (jd : α) : α := 23.439 - 0.00000036 * (jd - 2451545.0)

/-- The argument of `Math.asin` in `sunPos`: the sine of the declination. -/
def sinDecl (m : JSMath α) (jd : α) : α :=
  m.sin (obliquity jd * RAD m) * m.sin (eclipticLongitude m jd * RAD m)

/-- The constant `RA` of `sunPos`. -/
def rightAscension (m : JSMath α) (jd : α) : α :=
  m.atan2 (m.cos (obliquity jd * RAD m) * m.sin (eclipticLongitude m jd * RAD m))
    (m.cos (eclipticLongitude m jd * RAD m)) * DEG m

end SunQuantities

/-! ## Further definitions used in the statements -/

/-- The test `Math.abs(cosH) > 1` of `angleTime` on a quotient: true on an
infinity, false on `NaN`. -/
def absGtOne {α : Type} [LinearOrderedField α] (q : JSQuot α) : Prop :=
  match q with
  | JSQuot.fin c => |c| > 1
  | JSQuot.inf => True
  | JSQuot.nan => False

/-- The keys of `METHODS`. -/
def methodKeys : List ℤ := [1, 2, 3, 4, 5, 7, 8, 9, 10, 11, 12, 13]

/-- Real atan2, the value of `Math.atan2(y, x)`. -/
noncomputable def realAtan2 (y x : ℝ) : ℝ :=
  if 0 < x then Real.arctan (y / x)
  else if x < 0 then
    (if 0 ≤ y then Real.arctan (y / x) + Real.pi else Real.arctan (y / x) - Real.pi)
  else if 0 < y then Real.pi / 2
  else if y < 0 then -(Real.pi / 2)
  else 0

/-- The `Math` object over the real numbers.  `Real.arcsin` and `Real.arccos`
are clamped outside `[-1, 1]`, where `Math.asin` and `Math.acos` give `NaN`:
the code calls `Math.acos` only under the guard `|cosH| ≤ 1`, and `Math.asin`
on a product of two sines.  `Real.tan` is `0` where the cosine vanishes; no
statement below depends on its value there. -/
noncomputable def realMath : JSMath ℝ where
  pi := Real.pi
  sin := Real.sin
  cos := Real.cos
  tan := Real.tan
  asin := Real.arcsin
  acos := Real.arccos
  atan := Real.arctan
  atan2 := realAtan2

/-- The date 2000-06-21 (`getMonth()` is 5). -/
def solstice2000 : JSDate := ⟨2000, 5, 21⟩

/-- The date 2024-03-21 (`getMonth()` is 2). -/
def equinox2024 : JSDate := ⟨2024, 2, 21⟩

/-! ## Lemmas on the formatter -/

section FormatterLemmas

variable {α : Type} [LinearOrderedField α] [FloorRing α]

theorem padStart_two_fin :
    ∀ n : Fin 100, padStart (jsString (n.val : ℤ)) 2 '0' = twoDigits n.val := by decide

theorem padStart_two (x : ℤ) (h0 : 0 ≤ x) (h1 : x < 100) :
    padStart (jsString x) 2 '0' = twoDigits x.toNat := by
  obtain ⟨n, rfl⟩ := Int.eq_ofNat_of_zero_le h0
  have hn : n < 100 := by omega
  simpa using padStart_two_fin ⟨n, hn⟩

theorem mod24_nonneg (h : α) : 0 ≤ mod24 h := by
  unfold mod24
  have := Int.floor_le (h / 24)
  have h24 : (0 : α) < 24 := by norm_num
  rw [le_div_iff₀ h24] at this
  linarith

theorem mod24_lt (h : α) : mod24 h < 24 := by
  unfold mod24
  have := Int.lt_floor_add_one (h / 24)
  have h24 : (0 : α) < 24 := by norm_num
  rw [div_lt_iff₀ h24] at this
  linarith

theorem mod24_unique (h y : α) (k : ℤ) (hy : y = h - 24 * (k : α)) (h0 : 0 ≤ y) (h1 : y < 24) :
    y = mod24 h := by
  have hk : ⌊h / 24⌋ = k := by
    rw [Int.floor_eq_iff]
    have h24 : (0 : α) < 24 := by norm_num
    constructor
    · rw [le_div_iff₀ h24]; linarith
    · rw [div_lt_iff₀ h24]; linarith
  unfold mod24
  rw [hk, hy]

theorem jsRem_int (a : α) : ∃ k : ℤ, jsRem a 24 = a - 24 * (k : α) := by
  unfold jsRem
  split_ifs
  · exact ⟨_, rfl⟩
  · exact ⟨_, rfl⟩

theorem jsRem_gt (a : α) : -24 < jsRem a 24 := by
  unfold jsRem
  have h24 : (0 : α) < 24 := by norm_num
  split_ifs with h
  · have := Int.floor_le (a / 24)
    rw [le_div_iff₀ h24] at this
    linarith
  · have := Int.ceil_lt_add_one (a / 24)
    have h2 : ((⌈a / 24⌉ : α) - 1) * 24 < a := by
      rw [← lt_div_iff₀ h24]; linarith
    linarith

theorem jsRem_lt (a : α) : jsRem a 24 < 24 := by
  unfold jsRem
  have h24 : (0 : α) < 24 := by norm_num
  split_ifs with h
  · have := Int.lt_floor_add_one (a / 24)
    rw [div_lt_iff₀ h24] at this
    linarith
  · have := Int.le_ceil (a / 24)
    rw [div_le_iff₀ h24] at this
    linarith

theorem jsRem_nonneg_of_nonneg (a : α) (ha : 0 ≤ a) : 0 ≤ jsRem a 24 := by
  unfold jsRem
  have h24 : (0 : α) < 24 := by norm_num
  have hq : 0 ≤ a / 24 := div_nonneg ha h24.le
  rw [if_pos hq]
  have := Int.floor_le (a / 24)
  rw [le_div_iff₀ h24] at this
  linarith

/-- The normalisation `((h % 24) + 24) % 24` is the reduction of `h` into `[0, 24)`. -/
theorem jsRem_normalise (h : α) : jsRem (jsRem h 24 + 24) 24 = mod24 h := by
  obtain ⟨k1, hk1⟩ := jsRem_int h
  obtain ⟨k2, hk2⟩ := jsRem_int (jsRem h 24 + 24)
  have hgt := jsRem_gt h
  apply mod24_unique h _ (k1 + k2 - 1)
  · rw [hk2, hk1]; push_cast; ring
  · exact jsRem_nonneg_of_nonneg _ (by linarith)
  · exact jsRem_lt _

theorem floor_mod24_bounds (h : α) : 0 ≤ ⌊mod24 h⌋ ∧ ⌊mod24 h⌋ ≤ 23 := by
  constructor
  · exact Int.floor_nonneg.mpr (mod24_nonneg h)
  · have : ⌊mod24 h⌋ < 24 := by
      rw [Int.floor_lt]; exact_mod_cast mod24_lt h
    omega

theorem round_minutes_bounds (x : α) :
    0 ≤ ⌊(x - (⌊x⌋ : α)) * 60 + 1 / 2⌋ ∧ ⌊(x - (⌊x⌋ : α)) * 60 + 1 / 2⌋ ≤ 60 := by
  have h0 := Int.floor_le x
  have h1 := Int.lt_floor_add_one x
  constructor
  · apply Int.floor_nonneg.mpr; linarith
  · have : ⌊(x - (⌊x⌋ : α)) * 60 + 1 / 2⌋ < 61 := by
      rw [Int.floor_lt]; push_cast; linarith
    omega

theorem total_minutes (x : α) :
    ⌊60 * x + 1 / 2⌋ = 60 * ⌊x⌋ + ⌊(x - (⌊x⌋ : α)) * 60 + 1 / 2⌋ := by
  have : 60 * x + 1 / 2 = (x - (⌊x⌋ : α)) * 60 + 1 / 2 + ((60 * ⌊x⌋ : ℤ) : α) := by
    push_cast; ring
  rw [this, Int.floor_add_int]; ring

/-- The formatter on a finite value, in terms of the spec-side minute count. -/
theorem toHHMM_num (h : α) : toHHMM (Val.num h) = renderMinutes (minuteOfDay h) := by
  have hT := total_minutes (mod24 h)
  obtain ⟨hh0, hh1⟩ := floor_mod24_bounds h
  obtain ⟨hm0, hm1⟩ := round_minutes_bounds (mod24 h)
  simp only [toHHMM, jsRem_normalise, renderMinutes, minuteOfDay]
  rw [hT]
  generalize ⌊mod24 h⌋ = hh at *
  generalize ⌊(mod24 h - (hh : α)) * 60 + 1 / 2⌋ = mm at *
  by_cases hmm : mm = 60
  · subst hmm
    have e1 : (60 * hh + 60) % 1440 / 60 = (hh + 1) % 24 := by omega
    have e2 : (60 * hh + 60) % 1440 % 60 = 0 := by omega
    simp only [if_true, e1, e2]
    rw [padStart_two _ (by omega) (by omega), padStart_two _ (by omega) (by omega)]
  · have e1 : (60 * hh + mm) % 1440 / 60 = hh % 24 := by omega
    have e2 : (60 * hh + mm) % 1440 % 60 = mm := by omega
    simp only [if_neg hmm, e1, e2]
    rw [padStart_two _ (by omega) (by omega), padStart_two _ (by omega) (by omega)]

theorem minuteOfDay_bounds (h : α) : 0 ≤ minuteOfDay h ∧ minuteOfDay h < 1440 := by
  unfold minuteOfDay
  constructor
  · exact Int.emod_nonneg _ (by norm_num)
  · exact Int.emod_lt_of_pos _ (by norm_num)

end FormatterLemmas

/-! ## Lemmas on the calendar conversion -/

section CalendarLemmas

variable {α : Type} [LinearOrderedField α] [FloorRing α]

theorem floor_int_div (n : ℤ) (d : ℕ) : ⌊((n : α) / (d : α))⌋ = n / (d : ℤ) := by
  rw [← Rat.floor_intCast_div_natCast n d, ← Rat.floor_cast (α := α)]
  simp

/-- The value of `toJD` in integer arithmetic. -/
theorem toJD_eq_int (dt : JSDate) :
    (toJD dt : α) =
      ((367 * dt.fullYear - 7 * (dt.fullYear + (dt.month + 1 + 9) / 12) / 4
        + 275 * (dt.month + 1) / 9 + dt.date + 1721013 : ℤ) : α) + 1 / 2 := by
  have h1 : ⌊(((dt.month : α) + 1 + 9) / 12)⌋ = (dt.month + 1 + 9) / 12 := by
    have := floor_int_div (α := α) (dt.month + 1 + 9) 12
    push_cast at this; exact this
  have h2 : ⌊(7 * ((dt.fullYear : α) + (((dt.month + 1 + 9) / 12 : ℤ) : α)) / 4)⌋
      = 7 * (dt.fullYear + (dt.month + 1 + 9) / 12) / 4 := by
    have := floor_int_div (α := α) (7 * (dt.fullYear + (dt.month + 1 + 9) / 12)) 4
    push_cast at this; exact this
  have h3 : ⌊(275 * ((dt.month : α) + 1) / 9)⌋ = 275 * (dt.month + 1) / 9 := by
    have := floor_int_div (α := α) (275 * (dt.month + 1)) 9
    push_cast at this; exact this
  unfold toJD
  simp only [h1, h2, h3]
  push_cast
  ring

theorem daysInMonth_le (y m : ℤ) : daysInMonth y m ≤ 31 := by
  unfold daysInMonth
  split_ifs <;> norm_num

/-- On the years 1900..2100 the integer form of `toJD` is one less than the
standard Julian Day Number of the date's noon. -/
theorem toJD_int_standard (Y M D : ℤ) (hM1 : 1 ≤ M) (hM2 : M ≤ 12) (hD1 : 1 ≤ D) (hD2 : D ≤ 31)
    (hlo : 19000301 ≤ 10000 * Y + 100 * M + D) (hhi : 10000 * Y + 100 * M + D ≤ 21000228) :
    367 * Y - 7 * (Y + (M + 9) / 12) / 4 + 275 * M / 9 + D + 1721013 + 1 = gregorianJDN Y M D := by
  simp only [gregorianJDN]
  have hY1 : 1900 ≤ Y := by omega
  have hY2 : Y ≤ 2100 := by omega
  obtain ⟨k, r, hk, hr0, hr3⟩ : ∃ k r : ℤ, Y = 4 * k + r ∧ 0 ≤ r ∧ r ≤ 3 :=
    ⟨Y / 4, Y % 4, by omega, by omega, by omega⟩
  subst hk
  have hc : 4 * k + r ≤ 1999 ∨ 4 * k + r = 2000 ∨ 2001 ≤ 4 * k + r := by omega
  rcases hc with hc | hc | hc <;> interval_cases M <;> interval_cases r <;> omega

end CalendarLemmas

/-! ## Lemmas on the tables -/

section TableLemmas

variable {α : Type} [LinearOrderedField α]

/-- The entries of `COUNTRY_TZ` whose value is `null`. -/
theorem COUNTRY_TZ_null_iff (c : String) :
    (COUNTRY_TZ c : Option (Option α)) = some none ↔
      c ∈ ["Egypt", "Jordan", "Lebanon", "Palestine", "Syria", "Morocco"] := by
  simp only [List.mem_cons, List.mem_singleton, List.mem_nil_iff, or_false]
  unfold COUNTRY_TZ
  by_cases h0 : c = "Egypt"
  · subst h0; simp
  rw [if_neg h0]
  by_cases h1 : c = "Saudi Arabia"
  · subst h1; simp
  rw [if_neg h1]
  by_cases h2 : c = "United Arab Emirates"
  · subst h2; simp
  rw [if_neg h2]
  by_cases h3 : c = "Kuwait"
  · subst h3; simp
  rw [if_neg h3]
  by_cases h4 : c = "Qatar"
  · subst h4; simp
  rw [if_neg h4]
  by_cases h5 : c = "Bahrain"
  · subst h5; simp
  rw [if_neg h5]
  by_cases h6 : c = "Oman"
  · subst h6; simp
  rw [if_neg h6]
  by_cases h7 : c = "Jordan"
  · subst h7; simp
  rw [if_neg h7]
  by_cases h8 : c = "Lebanon"
  · subst h8; simp
  rw [if_neg h8]
  by_cases h9 : c = "Palestine"
  · subst h9; simp
  rw [if_neg h9]
  by_cases h10 : c = "Syria"
  · subst h10; simp
  rw [if_neg h10]
  by_cases h11 : c = "Iraq"
  · subst h11; simp
  rw [if_neg h11]
  by_cases h12 : c = "Yemen"
  · subst h12; simp
  rw [if_neg h12]
  by_cases h13 : c = "Morocco"
  · subst h13; simp
  rw [if_neg h13]
  by_cases h14 : c = "Algeria"
  · subst h14; simp
  rw [if_neg h14]
  by_cases h15 : c = "Tunisia"
  · subst h15; simp
  rw [if_neg h15]
  by_cases h16 : c = "Libya"
  · subst h16; simp
  rw [if_neg h16]
  by_cases h17 : c = "Sudan"
  · subst h17; simp
  rw [if_neg h17]
  simp [h0, h7, h8, h9, h10, h13]

end TableLemmas

/-! ## Enclosures of sine and cosine -/

/-- A function vanishing at 0 with non-negative derivative on the non-negative
half-line is non-negative there. -/
theorem nonneg_of_hasDerivAt_nonneg (f f' : ℝ → ℝ) (hf : ∀ x, HasDerivAt f (f' x) x)
    (h0 : f 0 = 0) (hpos : ∀ x, 0 ≤ x → 0 ≤ f' x) (x : ℝ) (hx : 0 ≤ x) : 0 ≤ f x := by
  have hmono : MonotoneOn f (Set.Ici 0) := by
    apply monotoneOn_of_deriv_nonneg (convex_Ici 0)
    · exact fun y _ => (hf y).continuousAt.continuousWithinAt
    · exact fun y _ => (hf y).differentiableAt.differentiableWithinAt
    · intro y hy
      rw [(hf y).deriv]
      exact hpos y (interior_subset hy)
  have := hmono (Set.mem_Ici.mpr le_rfl) (Set.mem_Ici.mpr hx) hx
  rwa [h0] at this

theorem sin_ge_cubic (x : ℝ) (hx : 0 ≤ x) : x - x ^ 3 / 6 ≤ Real.sin x := by
  have key := nonneg_of_hasDerivAt_nonneg (fun t => Real.sin t - (t - t ^ 3 / 6))
    (fun t => Real.cos t - (1 - t ^ 2 / 2)) ?_ (by simp) ?_ x hx
  · simpa using key
  · intro t
    have h := (Real.hasDerivAt_sin t).sub
      ((hasDerivAt_id t).sub ((hasDerivAt_pow 3 t).div_const 6))
    convert h using 1
    simp; ring
  · intro t _
    have := Real.one_sub_sq_div_two_le_cos (x := t)
    linarith

theorem cos_le_quartic (x : ℝ) (hx : 0 ≤ x) : Real.cos x ≤ 1 - x ^ 2 / 2 + x ^ 4 / 24 := by
  have key := nonneg_of_hasDerivAt_nonneg (fun t => (1 - t ^ 2 / 2 + t ^ 4 / 24) - Real.cos t)
    (fun t => Real.sin t - (t - t ^ 3 / 6)) ?_ (by simp) ?_ x hx
  · simpa using key
  · intro t
    have h := ((((hasDerivAt_const t (1 : ℝ)).sub ((hasDerivAt_pow 2 t).div_const 2)).add
      ((hasDerivAt_pow 4 t).div_const 24))).sub (Real.hasDerivAt_cos t)
    convert h using 1
    simp; ring
  · intro t ht
    have := sin_ge_cubic t ht
    linarith

theorem sin_le_quintic (x : ℝ) (hx : 0 ≤ x) : Real.sin x ≤ x - x ^ 3 / 6 + x ^ 5 / 120 := by
  have key := nonneg_of_hasDerivAt_nonneg (fun t => (t - t ^ 3 / 6 + t ^ 5 / 120) - Real.sin t)
    (fun t => (1 - t ^ 2 / 2 + t ^ 4 / 24) - Real.cos t) ?_ (by simp) ?_ x hx
  · simpa using key
  · intro t
    have h := ((((hasDerivAt_id t).sub ((hasDerivAt_pow 3 t).div_const 6)).add
      ((hasDerivAt_pow 5 t).div_const 120))).sub (Real.hasDerivAt_sin t)
    convert h using 1
    simp; ring
  · intro t ht
    have := cos_le_quartic t ht
    linarith

theorem cos_ge_sextic (x : ℝ) (hx : 0 ≤ x) :
    1 - x ^ 2 / 2 + x ^ 4 / 24 - x ^ 6 / 720 ≤ Real.cos x := by
  have key := nonneg_of_hasDerivAt_nonneg
    (fun t => Real.cos t - (1 - t ^ 2 / 2 + t ^ 4 / 24 - t ^ 6 / 720))
    (fun t => (t - t ^ 3 / 6 + t ^ 5 / 120) - Real.sin t) ?_ (by simp) ?_ x hx
  · simpa using key
  · intro t
    have h := (Real.hasDerivAt_cos t).sub
      ((((hasDerivAt_const t (1 : ℝ)).sub ((hasDerivAt_pow 2 t).div_const 2)).add
        ((hasDerivAt_pow 4 t).div_const 24)).sub ((hasDerivAt_pow 6 t).div_const 720))
    convert h using 1
    simp; ring
  · intro t ht
    have := sin_le_quintic t ht
    linarith


/-! ## Lemmas on `angleTime` -/

section AngleLemmas

variable {α : Type} [LinearOrderedField α]

theorem jsDiv_fin (a b : α) (hb : b ≠ 0) : jsDiv a b = JSQuot.fin (a / b) := by
  unfold jsDiv
  rw [if_neg hb]

theorem angleTime_eq_num (m : JSMath α) (decl lat angle md : α) (dir : Dir) (c : α)
    (hq : cosH m decl lat angle = JSQuot.fin c) (hc : |c| ≤ 1) :
    angleTime m decl lat angle md dir =
      Val.num (if dir = Dir.ccw then md - m.acos c * DEG m / 15
        else md + m.acos c * DEG m / 15) := by
  unfold angleTime
  rw [hq]
  simp [not_lt.mpr hc]

theorem angleTime_eq_null (m : JSMath α) (decl lat angle md : α) (dir : Dir) (c : α)
    (hq : cosH m decl lat angle = JSQuot.fin c) (hc : 1 < |c|) :
    angleTime m decl lat angle md dir = Val.null := by
  unfold angleTime
  rw [hq]
  simp [hc]

theorem angleTime_null_iff (m : JSMath α) (decl lat angle md : α) (dir : Dir) :
    angleTime m decl lat angle md dir = Val.null ↔ absGtOne (cosH m decl lat angle) := by
  unfold angleTime absGtOne
  cases hq : cosH m decl lat angle with
  | fin c =>
    by_cases hc : |c| > 1
    · simp [hc]
    · simp [hc]
  | inf => simp
  | nan => simp

end AngleLemmas

/-! ## The real instance -/

theorem RAD_real : RAD realMath = Real.pi / 180 := rfl

theorem DEG_real : DEG realMath = 180 / Real.pi := rfl

theorem deg_mul_rad (a : ℝ) : a * DEG realMath * RAD realMath = a := by
  rw [RAD_real, DEG_real]
  field_simp

theorem sinDecl_real_mem (jd : ℝ) : -1 ≤ sinDecl realMath jd ∧ sinDecl realMath jd ≤ 1 := by
  have h : |sinDecl realMath jd| ≤ 1 := by
    unfold sinDecl
    rw [abs_mul]
    have h1 := Real.abs_sin_le_one (obliquity jd * RAD realMath)
    have h2 := Real.abs_sin_le_one (eclipticLongitude realMath jd * RAD realMath)
    calc |realMath.sin (obliquity jd * RAD realMath)|
          * |realMath.sin (eclipticLongitude realMath jd * RAD realMath)|
        ≤ 1 * 1 := mul_le_mul h1 h2 (abs_nonneg _) (by norm_num)
      _ = 1 := by norm_num
  exact abs_le.mp h

theorem decl_rad (jd : ℝ) :
    (sunPos realMath jd).D * RAD realMath = Real.arcsin (sinDecl realMath jd) := by
  show Real.arcsin (sinDecl realMath jd) * DEG realMath * RAD realMath = _
  exact deg_mul_rad _

theorem sin_decl_rad (jd : ℝ) :
    Real.sin ((sunPos realMath jd).D * RAD realMath) = sinDecl realMath jd := by
  rw [decl_rad]
  exact Real.sin_arcsin (sinDecl_real_mem jd).1 (sinDecl_real_mem jd).2

theorem cos_decl_rad (jd : ℝ) :
    Real.cos ((sunPos realMath jd).D * RAD realMath) = √(1 - sinDecl realMath jd ^ 2) := by
  rw [decl_rad]
  exact Real.cos_arcsin _

/-- The quotient `cosH` over the reals, for the declination of `sunPos`. -/
theorem cosH_real (jd lat angle : ℝ) :
    cosH realMath (sunPos realMath jd).D lat angle =
      jsDiv (-Real.sin (angle * (Real.pi / 180))
          - Real.sin (lat * (Real.pi / 180)) * sinDecl realMath jd)
        (Real.cos (lat * (Real.pi / 180)) * √(1 - sinDecl realMath jd ^ 2)) := by
  unfold cosH
  rw [show realMath.sin = Real.sin from rfl, show realMath.cos = Real.cos from rfl,
    sin_decl_rad, cos_decl_rad, RAD_real]

/-! ### Enclosures in degrees -/

theorem rad_bounds (a : ℝ) (ha : 0 ≤ a) :
    a * (3.141592 / 180) ≤ a * (Real.pi / 180) ∧ a * (Real.pi / 180) ≤ a * (3.141593 / 180) := by
  have h1 := Real.pi_gt_d6
  have h2 := Real.pi_lt_d6
  constructor
  · apply mul_le_mul_of_nonneg_left _ ha; linarith
  · apply mul_le_mul_of_nonneg_left _ ha; linarith

theorem sin_enclosure (t lo hi : ℝ) (h0 : 0 ≤ lo) (hl : lo ≤ t) (hh : t ≤ hi) :
    lo - hi ^ 3 / 6 ≤ Real.sin t ∧ Real.sin t ≤ hi - lo ^ 3 / 6 + hi ^ 5 / 120 := by
  have ht : 0 ≤ t := le_trans h0 hl
  have h3 : t ^ 3 ≤ hi ^ 3 := pow_le_pow_left₀ ht hh 3
  have h3' : lo ^ 3 ≤ t ^ 3 := pow_le_pow_left₀ h0 hl 3
  have h5 : t ^ 5 ≤ hi ^ 5 := pow_le_pow_left₀ ht hh 5
  have := sin_ge_cubic t ht
  have := sin_le_quintic t ht
  constructor <;> linarith

theorem cos_enclosure (t lo hi : ℝ) (h0 : 0 ≤ lo) (hl : lo ≤ t) (hh : t ≤ hi) :
    1 - hi ^ 2 / 2 + lo ^ 4 / 24 - hi ^ 6 / 720 ≤ Real.cos t ∧
      Real.cos t ≤ 1 - lo ^ 2 / 2 + hi ^ 4 / 24 := by
  have ht : 0 ≤ t := le_trans h0 hl
  have h2 : t ^ 2 ≤ hi ^ 2 := pow_le_pow_left₀ ht hh 2
  have h2' : lo ^ 2 ≤ t ^ 2 := pow_le_pow_left₀ h0 hl 2
  have h4 : t ^ 4 ≤ hi ^ 4 := pow_le_pow_left₀ ht hh 4
  have h4' : lo ^ 4 ≤ t ^ 4 := pow_le_pow_left₀ h0 hl 4
  have h6 : t ^ 6 ≤ hi ^ 6 := pow_le_pow_left₀ ht hh 6
  have := cos_ge_sextic t ht
  have := cos_le_quartic t ht
  constructor <;> linarith

/-- Enclosure of the sine of `a` degrees, `a ≥ 0`. -/
theorem sin_deg_enclosure (a : ℝ) (ha : 0 ≤ a) :
    a * (3.141592 / 180) - (a * (3.141593 / 180)) ^ 3 / 6 ≤ Real.sin (a * (Real.pi / 180)) ∧
      Real.sin (a * (Real.pi / 180)) ≤
        a * (3.141593 / 180) - (a * (3.141592 / 180)) ^ 3 / 6 + (a * (3.141593 / 180)) ^ 5 / 120 :=
  sin_enclosure _ _ _ (by positivity) (rad_bounds a ha).1 (rad_bounds a ha).2

/-- Enclosure of the cosine of `a` degrees, `a ≥ 0`. -/
theorem cos_deg_enclosure (a : ℝ) (ha : 0 ≤ a) :
    1 - (a * (3.141593 / 180)) ^ 2 / 2 + (a * (3.141592 / 180)) ^ 4 / 24
        - (a * (3.141593 / 180)) ^ 6 / 720 ≤ Real.cos (a * (Real.pi / 180)) ∧
      Real.cos (a * (Real.pi / 180)) ≤
        1 - (a * (3.141592 / 180)) ^ 2 / 2 + (a * (3.141593 / 180)) ^ 4 / 24 :=
  cos_enclosure _ _ _ (by positivity) (rad_bounds a ha).1 (rad_bounds a ha).2

theorem sin_deg_complement (a : ℝ) :
    Real.sin (a * (Real.pi / 180)) = Real.cos ((90 - a) * (Real.pi / 180)) := by
  rw [← Real.sin_pi_div_two_sub]
  congr 1; ring

theorem cos_deg_complement (a : ℝ) :
    Real.cos (a * (Real.pi / 180)) = Real.sin ((90 - a) * (Real.pi / 180)) := by
  rw [← Real.cos_pi_div_two_sub]
  congr 1; ring

theorem sin_deg_add_360 (a : ℝ) (k : ℤ) :
    Real.sin ((a + 360 * k) * (Real.pi / 180)) = Real.sin (a * (Real.pi / 180)) := by
  rw [show (a + 360 * k) * (Real.pi / 180) = a * (Real.pi / 180) + k * (2 * Real.pi) by ring]
  exact Real.sin_add_int_mul_two_pi _ k

theorem cos_deg_add_360 (a : ℝ) (k : ℤ) :
    Real.cos ((a + 360 * k) * (Real.pi / 180)) = Real.cos (a * (Real.pi / 180)) := by
  rw [show (a + 360 * k) * (Real.pi / 180) = a * (Real.pi / 180) + k * (2 * Real.pi) by ring]
  exact Real.cos_add_int_mul_two_pi _ k

theorem sin_deg_supplement (a : ℝ) :
    Real.sin ((180 - a) * (Real.pi / 180)) = Real.sin (a * (Real.pi / 180)) := by
  rw [show (180 - a) * (Real.pi / 180) = Real.pi - a * (Real.pi / 180) by ring]
  exact Real.sin_pi_sub _

/-! ### The sun on 2000-06-21 -/

theorem toJD_solstice2000 : (toJD solstice2000 : ℝ) = 2451716.5 := by
  rw [toJD_eq_int]; norm_num [solstice2000]

theorem meanAnomaly_solstice2000 : meanAnomaly (2451716.5 : ℝ) = 526.55944802 := by
  unfold meanAnomaly; norm_num

theorem meanLongitude_solstice2000 : meanLongitude (2451716.5 : ℝ) = 449.49752224 := by
  unfold meanLongitude; norm_num

theorem obliquity_solstice2000 : obliquity (2451716.5 : ℝ) = 23.43893826 := by
  unfold obliquity; norm_num

theorem sin_anomaly_solstice2000 :
    0 ≤ Real.sin (526.55944802 * (Real.pi / 180)) ∧
      Real.sin (526.55944802 * (Real.pi / 180)) ≤ 0.2346 := by
  have e : (526.55944802 : ℝ) = (180 - 13.44055198) + 360 * ((1 : ℤ) : ℝ) := by norm_num
  rw [e, sin_deg_add_360, sin_deg_supplement]
  obtain ⟨h1, h2⟩ := sin_deg_enclosure 13.44055198 (by norm_num)
  constructor
  · refine le_trans ?_ h1; norm_num
  · refine le_trans h2 ?_; norm_num

theorem eclipticLongitude_solstice2000 :
    449.4775 ≤ eclipticLongitude realMath 2451716.5 ∧
      eclipticLongitude realMath 2451716.5 ≤ 449.9668 := by
  unfold eclipticLongitude
  rw [meanAnomaly_solstice2000, meanLongitude_solstice2000, RAD_real]
  obtain ⟨h1, h2⟩ := sin_anomaly_solstice2000
  have h3 := Real.neg_one_le_sin (2 * 526.55944802 * (Real.pi / 180))
  have h4 := Real.sin_le_one (2 * 526.55944802 * (Real.pi / 180))
  show 449.4775 ≤ 449.49752224 + 1.915 * Real.sin (526.55944802 * (Real.pi / 180))
        + 0.020 * Real.sin (2 * 526.55944802 * (Real.pi / 180)) ∧
      449.49752224 + 1.915 * Real.sin (526.55944802 * (Real.pi / 180))
        + 0.020 * Real.sin (2 * 526.55944802 * (Real.pi / 180)) ≤ 449.9668
  constructor <;> linarith

theorem sin_longitude_solstice2000 :
    0.99995 ≤ Real.sin (eclipticLongitude realMath 2451716.5 * (Real.pi / 180)) ∧
      Real.sin (eclipticLongitude realMath 2451716.5 * (Real.pi / 180)) ≤ 1 := by
  obtain ⟨h1, h2⟩ := eclipticLongitude_solstice2000
  refine ⟨?_, Real.sin_le_one _⟩
  set L := eclipticLongitude realMath 2451716.5
  have e : L = (90 - (450 - L)) + 360 * ((1 : ℤ) : ℝ) := by push_cast; ring
  rw [e, sin_deg_add_360, sin_deg_complement]
  have e2 : (90 - (90 - (450 - L))) = 450 - L := by ring
  rw [e2]
  have hb := rad_bounds (450 - L) (by linarith)
  have hc := Real.one_sub_sq_div_two_le_cos (x := (450 - L) * (Real.pi / 180))
  have h0 : 0 ≤ (450 - L) * (Real.pi / 180) := by
    apply mul_nonneg (by linarith) (by positivity)
  have hle : (450 - L) * (Real.pi / 180) ≤ 0.00912 := by
    have : (450 - L) * (3.141593 / 180) ≤ 0.5225 * (3.141593 / 180) := by
      apply mul_le_mul_of_nonneg_right (by linarith) (by norm_num)
    have : (0.5225 : ℝ) * (3.141593 / 180) ≤ 0.00912 := by norm_num
    linarith [hb.2]
  have hsq : ((450 - L) * (Real.pi / 180)) ^ 2 ≤ 0.00912 ^ 2 := pow_le_pow_left₀ h0 hle 2
  have : (0.00912 : ℝ) ^ 2 ≤ 0.0001 := by norm_num
  linarith

/-- Enclosure of the sine of the declination on 2000-06-21. -/
theorem sinDecl_solstice2000 :
    0.397656 ≤ sinDecl realMath (toJD solstice2000) ∧
      sinDecl realMath (toJD solstice2000) ≤ 0.397772 := by
  rw [toJD_solstice2000]
  unfold sinDecl
  rw [obliquity_solstice2000, RAD_real]
  obtain ⟨hl1, hl2⟩ := sin_longitude_solstice2000
  obtain ⟨he1, he2⟩ := sin_deg_enclosure 23.43893826 (by norm_num)
  show 0.397656 ≤ Real.sin (23.43893826 * (Real.pi / 180))
        * Real.sin (eclipticLongitude realMath 2451716.5 * (Real.pi / 180)) ∧
      Real.sin (23.43893826 * (Real.pi / 180))
        * Real.sin (eclipticLongitude realMath 2451716.5 * (Real.pi / 180)) ≤ 0.397772
  have e1 : (0.397676 : ℝ) ≤ Real.sin (23.43893826 * (Real.pi / 180)) := by
    refine le_trans ?_ he1; norm_num
  have e2 : Real.sin (23.43893826 * (Real.pi / 180)) ≤ 0.397772 := by
    refine le_trans he2 ?_; norm_num
  constructor
  · calc (0.397656 : ℝ) ≤ 0.397676 * 0.99995 := by norm_num
      _ ≤ Real.sin (23.43893826 * (Real.pi / 180))
          * Real.sin (eclipticLongitude realMath 2451716.5 * (Real.pi / 180)) :=
        mul_le_mul e1 hl1 (by norm_num) (by linarith)
  · calc Real.sin (23.43893826 * (Real.pi / 180))
          * Real.sin (eclipticLongitude realMath 2451716.5 * (Real.pi / 180))
        ≤ 0.397772 * 1 := mul_le_mul e2 hl2 (by linarith) (by norm_num)
      _ = 0.397772 := by norm_num

/-- Enclosure of the cosine of the declination on 2000-06-21. -/
theorem cosDecl_solstice2000 :
    0.917484 ≤ √(1 - sinDecl realMath (toJD solstice2000) ^ 2) ∧
      √(1 - sinDecl realMath (toJD solstice2000) ^ 2) ≤ 0.917536 := by
  obtain ⟨h1, h2⟩ := sinDecl_solstice2000
  set x := sinDecl realMath (toJD solstice2000)
  have hx0 : 0 ≤ x := by linarith
  have hsq1 : x ^ 2 ≤ 0.397772 ^ 2 := pow_le_pow_left₀ hx0 h2 2
  have hsq2 : (0.397656 : ℝ) ^ 2 ≤ x ^ 2 := pow_le_pow_left₀ (by norm_num) h1 2
  constructor
  · apply Real.le_sqrt_of_sq_le
    have : (0.917484 : ℝ) ^ 2 ≤ 1 - 0.397772 ^ 2 := by norm_num
    linarith
  · rw [Real.sqrt_le_left (by norm_num)]
    have : 1 - (0.397656 : ℝ) ^ 2 ≤ 0.917536 ^ 2 := by norm_num
    linarith

/-! ### `angleTime` over the reals -/

theorem angleTime_real_num (jd lat angle md : ℝ) (dir : Dir)
    (hd : Real.cos (lat * (Real.pi / 180)) * √(1 - sinDecl realMath jd ^ 2) ≠ 0)
    (h : |(-Real.sin (angle * (Real.pi / 180))
          - Real.sin (lat * (Real.pi / 180)) * sinDecl realMath jd)| ≤
        |Real.cos (lat * (Real.pi / 180)) * √(1 - sinDecl realMath jd ^ 2)|) :
    angleTime realMath (sunPos realMath jd).D lat angle md dir =
      Val.num (if dir = Dir.ccw then
          md - Real.arccos ((-Real.sin (angle * (Real.pi / 180))
            - Real.sin (lat * (Real.pi / 180)) * sinDecl realMath jd) /
            (Real.cos (lat * (Real.pi / 180)) * √(1 - sinDecl realMath jd ^ 2)))
            * (180 / Real.pi) / 15
        else
          md + Real.arccos ((-Real.sin (angle * (Real.pi / 180))
            - Real.sin (lat * (Real.pi / 180)) * sinDecl realMath jd) /
            (Real.cos (lat * (Real.pi / 180)) * √(1 - sinDecl realMath jd ^ 2)))
            * (180 / Real.pi) / 15) := by
  have hq := cosH_real jd lat angle
  rw [jsDiv_fin _ _ hd] at hq
  have hc : |(-Real.sin (angle * (Real.pi / 180))
          - Real.sin (lat * (Real.pi / 180)) * sinDecl realMath jd) /
        (Real.cos (lat * (Real.pi / 180)) * √(1 - sinDecl realMath jd ^ 2))| ≤ 1 := by
    rw [abs_div]
    exact div_le_one_of_le₀ h (abs_nonneg _)
  exact angleTime_eq_num realMath _ lat angle md dir _ hq hc

theorem angleTime_real_null (jd lat angle md : ℝ) (dir : Dir)
    (hd : Real.cos (lat * (Real.pi / 180)) * √(1 - sinDecl realMath jd ^ 2) ≠ 0)
    (h : |Real.cos (lat * (Real.pi / 180)) * √(1 - sinDecl realMath jd ^ 2)| <
        |(-Real.sin (angle * (Real.pi / 180))
          - Real.sin (lat * (Real.pi / 180)) * sinDecl realMath jd)|) :
    angleTime realMath (sunPos realMath jd).D lat angle md dir = Val.null := by
  have hq := cosH_real jd lat angle
  rw [jsDiv_fin _ _ hd] at hq
  have hc : 1 < |(-Real.sin (angle * (Real.pi / 180))
          - Real.sin (lat * (Real.pi / 180)) * sinDecl realMath jd) /
        (Real.cos (lat * (Real.pi / 180)) * √(1 - sinDecl realMath jd ^ 2))| := by
    rw [abs_div, one_lt_div (abs_pos.mpr hd)]
    exact h
  exact angleTime_eq_null realMath _ lat angle md dir _ hq hc

/-! ### Latitude 180 on 2000-06-21 -/

theorem sunrise_latitude_180 (md : ℝ) :
    ∃ s, angleTime realMath (sunPos realMath (toJD solstice2000)).D 180 0.833 md Dir.ccw
      = Val.num s := by
  obtain ⟨hy1, hy2⟩ := cosDecl_solstice2000
  obtain ⟨hs1, hs2⟩ := sin_deg_enclosure 0.833 (by norm_num)
  have hs1' : 0 ≤ Real.sin (0.833 * (Real.pi / 180)) := by
    refine le_trans ?_ hs1; norm_num
  have hs2' : Real.sin (0.833 * (Real.pi / 180)) ≤ 0.015 := by
    refine le_trans hs2 ?_; norm_num
  have e180 : (180 : ℝ) * (Real.pi / 180) = Real.pi := by ring
  refine ⟨_, angleTime_real_num (toJD solstice2000) 180 0.833 md Dir.ccw ?_ ?_⟩
  · rw [e180, Real.cos_pi]
    intro h
    linarith
  · rw [e180, Real.cos_pi, Real.sin_pi]
    rw [abs_le]
    have : |(-1 : ℝ) * √(1 - sinDecl realMath (toJD solstice2000) ^ 2)|
        = √(1 - sinDecl realMath (toJD solstice2000) ^ 2) := by
      rw [abs_mul, abs_neg, abs_one, one_mul, abs_of_nonneg (by linarith)]
    rw [this]
    constructor <;> linarith

/-! ### Lemmas on the Isha rule -/

section IshaLemmas

variable {α : Type} [LinearOrderedField α]

theorem ishaOf_null (m : JSMath α) (me : Method α) (decl lat md : α) :
    ishaOf m me decl lat md Val.null = angleTime m decl lat (toNumber me.isha) md Dir.cw := by
  unfold ishaOf
  cases truthy me.ishaMin <;> rfl

theorem ishaOf_offset_num (m : JSMath α) (me : Method α) (decl lat md x : α)
    (h : truthy me.ishaMin = true) :
    ishaOf m me decl lat md (Val.num x) = Val.num (x + toNumber me.ishaMin / 60) := by
  unfold ishaOf
  rw [h]

theorem ishaOf_angle (m : JSMath α) (me : Method α) (decl lat md : α) (mg : Val α)
    (h : truthy me.ishaMin = false) :
    ishaOf m me decl lat md mg = angleTime m decl lat (toNumber me.isha) md Dir.cw := by
  unfold ishaOf
  rw [h]

end IshaLemmas

/-! ### Latitude 66.2 on 2000-06-21 -/

theorem trig_latitude_66_2 :
    (0.914959 ≤ Real.sin (66.2 * (Real.pi / 180)) ∧
        Real.sin (66.2 * (Real.pi / 180)) ≤ 0.914967) ∧
      (0.403442 ≤ Real.cos (66.2 * (Real.pi / 180)) ∧
        Real.cos (66.2 * (Real.pi / 180)) ≤ 0.403546) := by
  rw [sin_deg_complement 66.2, cos_deg_complement 66.2]
  have e : (90 - 66.2 : ℝ) = 23.8 := by norm_num
  rw [e]
  obtain ⟨c1, c2⟩ := cos_deg_enclosure 23.8 (by norm_num)
  obtain ⟨s1, s2⟩ := sin_deg_enclosure 23.8 (by norm_num)
  refine ⟨⟨le_trans ?_ c1, le_trans c2 ?_⟩, ⟨le_trans ?_ s1, le_trans s2 ?_⟩⟩ <;> norm_num

theorem sin_sunset_angle :
    0.014538 ≤ Real.sin (0.833 * (Real.pi / 180)) ∧
      Real.sin (0.833 * (Real.pi / 180)) ≤ 0.014539 := by
  obtain ⟨hs1, hs2⟩ := sin_deg_enclosure 0.833 (by norm_num)
  exact ⟨le_trans (by norm_num) hs1, le_trans hs2 (by norm_num)⟩

theorem maghrib_latitude_66_2 (md : ℝ) :
    angleTime realMath (sunPos realMath (toJD solstice2000)).D 66.2 0.833 md Dir.cw
      = Val.null := by
  obtain ⟨hx1, hx2⟩ := sinDecl_solstice2000
  obtain ⟨hy1, hy2⟩ := cosDecl_solstice2000
  obtain ⟨⟨ha1, ha2⟩, ⟨hb1, hb2⟩⟩ := trig_latitude_66_2
  obtain ⟨hs1, hs2⟩ := sin_sunset_angle
  set X := sinDecl realMath (toJD solstice2000)
  set y := √(1 - X ^ 2)
  set A := Real.sin (66.2 * (Real.pi / 180))
  set B := Real.cos (66.2 * (Real.pi / 180))
  set S := Real.sin (0.833 * (Real.pi / 180))
  have hBy : B * y ≤ 0.3703 :=
    le_trans (mul_le_mul hb2 hy2 (by linarith) (by norm_num)) (by norm_num)
  have hBy0 : 0 < B * y := mul_pos (by linarith) (by linarith)
  have hAX : 0.3638 ≤ A * X :=
    le_trans (by norm_num) (mul_le_mul ha1 hx1 (by norm_num) (by linarith))
  apply angleTime_real_null (toJD solstice2000) 66.2 0.833 md Dir.cw hBy0.ne'
  show |B * y| < |-S - A * X|
  rw [abs_of_pos hBy0, abs_of_neg (by linarith)]
  linarith

theorem isha_latitude_66_2 (md : ℝ) :
    ∃ x, angleTime realMath (sunPos realMath (toJD solstice2000)).D 66.2 0 md Dir.cw
      = Val.num x := by
  obtain ⟨hx1, hx2⟩ := sinDecl_solstice2000
  obtain ⟨hy1, hy2⟩ := cosDecl_solstice2000
  obtain ⟨⟨ha1, ha2⟩, ⟨hb1, hb2⟩⟩ := trig_latitude_66_2
  set X := sinDecl realMath (toJD solstice2000)
  set y := √(1 - X ^ 2)
  set A := Real.sin (66.2 * (Real.pi / 180))
  set B := Real.cos (66.2 * (Real.pi / 180))
  have hBy : 0.3701 ≤ B * y :=
    le_trans (by norm_num) (mul_le_mul hb1 hy1 (by norm_num) (by linarith))
  have hBy0 : 0 < B * y := mul_pos (by linarith) (by linarith)
  have hAX : A * X ≤ 0.364 :=
    le_trans (mul_le_mul ha2 hx2 (by linarith) (by norm_num)) (by norm_num)
  have hAX0 : 0 ≤ A * X := mul_nonneg (by linarith) (by linarith)
  refine ⟨_, angleTime_real_num (toJD solstice2000) 66.2 0 md Dir.cw hBy0.ne' ?_⟩
  show |-Real.sin (0 * (Real.pi / 180)) - A * X| ≤ |B * y|
  rw [abs_of_pos hBy0, zero_mul, Real.sin_zero, neg_zero, zero_sub, abs_neg, abs_of_nonneg hAX0]
  linarith

/-! ### Latitude −66.46 on 2000-06-21 -/

theorem arccos_le_of_cos_le (θ c : ℝ) (h0 : 0 ≤ θ) (hpi : θ ≤ Real.pi)
    (h : Real.cos θ ≤ c) : Real.arccos c ≤ θ := by
  rw [← Real.arccos_cos h0 hpi]
  unfold Real.arccos
  linarith [Real.monotone_arcsin h]

/-- An hour angle of at most 0.4995°, i.e. 0.0333 h. -/
theorem hour_angle_small (n d : ℝ) (hd : 0 < d) (h : (1 - 0.0000379) * d ≤ n) :
    Real.arccos (n / d) * (180 / Real.pi) / 15 ≤ 0.0333 := by
  have hθ := rad_bounds 0.4995 (by norm_num)
  have hcosθ := (cos_enclosure (0.4995 * (Real.pi / 180)) _ _ (by norm_num) hθ.1 hθ.2).2
  have h1 : Real.cos (0.4995 * (Real.pi / 180)) ≤ 1 - 0.0000379 :=
    le_trans hcosθ (by norm_num)
  have hcos : Real.cos (0.4995 * (Real.pi / 180)) ≤ n / d := by
    rw [le_div_iff₀ hd]
    have h2 : Real.cos (0.4995 * (Real.pi / 180)) * d ≤ (1 - 0.0000379) * d :=
      mul_le_mul_of_nonneg_right h1 hd.le
    linarith
  have hpi := Real.pi_pos
  have harc := arccos_le_of_cos_le (0.4995 * (Real.pi / 180)) _ (by positivity)
    (by nlinarith) hcos
  have : Real.arccos (n / d) * (180 / Real.pi) / 15
      ≤ 0.4995 * (Real.pi / 180) * (180 / Real.pi) / 15 := by
    apply div_le_div_of_nonneg_right _ (by norm_num)
    exact mul_le_mul_of_nonneg_right harc (by positivity)
  have e : (0.4995 : ℝ) * (Real.pi / 180) * (180 / Real.pi) / 15 = 0.0333 := by
    field_simp; norm_num
  linarith

/-- A smaller `cosH` has a larger hour angle. -/
theorem hour_angle_mono (c1 c2 : ℝ) (h : c1 ≤ c2) :
    Real.arccos c2 * (180 / Real.pi) / 15 ≤ Real.arccos c1 * (180 / Real.pi) / 15 := by
  have hpi := Real.pi_pos
  have harc : Real.arccos c2 ≤ Real.arccos c1 := by
    unfold Real.arccos
    linarith [Real.monotone_arcsin h]
  apply div_le_div_of_nonneg_right _ (by norm_num)
  exact mul_le_mul_of_nonneg_right harc (by positivity)


theorem trig_latitude_66_46 :
    (0.916781 ≤ Real.sin (66.46 * (Real.pi / 180)) ∧
        Real.sin (66.46 * (Real.pi / 180)) ≤ 0.916789) ∧
      (0.399291 ≤ Real.cos (66.46 * (Real.pi / 180)) ∧
        Real.cos (66.46 * (Real.pi / 180)) ≤ 0.399390) := by
  rw [sin_deg_complement 66.46, cos_deg_complement 66.46]
  have e : (90 - 66.46 : ℝ) = 23.54 := by norm_num
  rw [e]
  obtain ⟨c1, c2⟩ := cos_deg_enclosure 23.54 (by norm_num)
  obtain ⟨s1, s2⟩ := sin_deg_enclosure 23.54 (by norm_num)
  refine ⟨⟨le_trans ?_ c1, le_trans c2 ?_⟩, ⟨le_trans ?_ s1, le_trans s2 ?_⟩⟩ <;> norm_num

/-- The sine of the Asr angle when the noon sun is just above the horizon:
with `c`, `s` the cosine and sine of the zenith distance `|lat − decl|`, the
sine of `atan(1 / (1 + tan))` is within `4e-6` below `c`. -/
theorem asr_sine_near_horizon (c s : ℝ) (hc0 : 0 < c) (hc1 : c ≤ 0.0019) (hs0 : 0 < s)
    (hcs : s ^ 2 + c ^ 2 = 1) :
    1 / (1 + s / c) / √(1 + (1 / (1 + s / c)) ^ 2) ≤ c ∧
      c - 0.000004 ≤ 1 / (1 + s / c) / √(1 + (1 / (1 + s / c)) ^ 2) := by
  have hu : 1 / (1 + s / c) = c / (c + s) := by
    field_simp
  rw [hu]
  have hs1 : s ≤ 1 := by nlinarith [sq_nonneg c]
  have hsum : 1 ≤ c + s := by
    by_contra hlt
    push_neg at hlt
    nlinarith [mul_pos hc0 hs0]
  have hpos : 0 < c + s := by linarith
  set u := c / (c + s) with hudef
  have hu0 : 0 < u := div_pos hc0 hpos
  have huc : u ≤ c := div_le_self hc0.le hsum
  have hulow : c - 0.00000361 ≤ u := by
    rw [hudef, le_div_iff₀ hpos]
    nlinarith
  have hr1 : 1 ≤ √(1 + u ^ 2) := by
    rw [Real.le_sqrt (by norm_num) (by positivity)]
    nlinarith [sq_nonneg u]
  have hr2 : √(1 + u ^ 2) ≤ 1 + u ^ 2 := by
    rw [Real.sqrt_le_left (by positivity)]
    nlinarith [sq_nonneg u, sq_nonneg (u ^ 2)]
  have hrpos : 0 < √(1 + u ^ 2) := by linarith
  constructor
  · exact le_trans (div_le_self hu0.le hr1) huc
  · rw [le_div_iff₀ hrpos]
    have hu2 : u ^ 2 ≤ 0.0019 ^ 2 := pow_le_pow_left₀ hu0.le (le_trans huc hc1) 2
    have hcr : (c - 0.000004) * √(1 + u ^ 2) ≤ (c - 0.000004) * (1 + u ^ 2) ∨ c - 0.000004 ≤ 0 := by
      by_cases hneg : c - 0.000004 ≤ 0
      · exact Or.inr hneg
      · exact Or.inl (mul_le_mul_of_nonneg_left hr2 (by linarith))
    rcases hcr with h | h
    · nlinarith
    · nlinarith [mul_nonneg hu0.le hrpos.le]

/-- The zenith distance `|lat − decl|` (radians) at latitude −66.46 on
2000-06-21: its cosine is between 0.0016 and 0.0019. -/
theorem zenith_latitude_m66_46 :
    Real.cos (66.46 * (Real.pi / 180) + Real.arcsin (sinDecl realMath (toJD solstice2000))) =
        Real.cos (66.46 * (Real.pi / 180)) * √(1 - sinDecl realMath (toJD solstice2000) ^ 2)
          - Real.sin (66.46 * (Real.pi / 180)) * sinDecl realMath (toJD solstice2000) ∧
      0.0016 ≤ Real.cos (66.46 * (Real.pi / 180)
        + Real.arcsin (sinDecl realMath (toJD solstice2000))) ∧
      Real.cos (66.46 * (Real.pi / 180)
        + Real.arcsin (sinDecl realMath (toJD solstice2000))) ≤ 0.0019 ∧
      0 < Real.sin (66.46 * (Real.pi / 180)
        + Real.arcsin (sinDecl realMath (toJD solstice2000))) := by
  obtain ⟨hx1, hx2⟩ := sinDecl_solstice2000
  obtain ⟨hy1, hy2⟩ := cosDecl_solstice2000
  obtain ⟨⟨ha1, ha2⟩, ⟨hb1, hb2⟩⟩ := trig_latitude_66_46
  rw [Real.cos_add, Real.sin_add, Real.cos_arcsin,
    Real.sin_arcsin (sinDecl_real_mem _).1 (sinDecl_real_mem _).2]
  set X := sinDecl realMath (toJD solstice2000)
  set y := √(1 - X ^ 2)
  set A := Real.sin (66.46 * (Real.pi / 180))
  set B := Real.cos (66.46 * (Real.pi / 180))
  have hBy1 : 0.36634 ≤ B * y :=
    le_trans (by norm_num) (mul_le_mul hb1 hy1 (by norm_num) (by linarith))
  have hBy2 : B * y ≤ 0.36646 :=
    le_trans (mul_le_mul hb2 hy2 (by linarith) (by norm_num)) (by norm_num)
  have hAX1 : 0.36456 ≤ A * X :=
    le_trans (by norm_num) (mul_le_mul ha1 hx1 (by norm_num) (by linarith))
  have hAX2 : A * X ≤ 0.36468 :=
    le_trans (mul_le_mul ha2 hx2 (by linarith) (by norm_num)) (by norm_num)
  have hAy : 0 < A * y := mul_pos (by linarith) (by linarith)
  have hBX : 0 < B * X := mul_pos (by linarith) (by linarith)
  refine ⟨rfl, by linarith, by linarith, by linarith⟩

theorem asr_angle_latitude_m66_46 :
    asrAngle realMath (sunPos realMath (toJD solstice2000)).D (-66.46) 1 * (Real.pi / 180) =
      -Real.arctan (1 / (1 + Real.tan (66.46 * (Real.pi / 180)
        + Real.arcsin (sinDecl realMath (toJD solstice2000))))) := by
  obtain ⟨hx1, hx2⟩ := sinDecl_solstice2000
  obtain ⟨-, hc1, hc2, hs0⟩ := zenith_latitude_m66_46
  have hD : (sunPos realMath (toJD solstice2000)).D * (Real.pi / 180)
      = Real.arcsin (sinDecl realMath (toJD solstice2000)) := decl_rad _
  have hpos : 0 < Real.arcsin (sinDecl realMath (toJD solstice2000)) :=
    Real.arcsin_pos.mpr (by linarith)
  have hDpos : 0 < (sunPos realMath (toJD solstice2000)).D := by
    by_contra hneg
    push_neg at hneg
    have : (sunPos realMath (toJD solstice2000)).D * (Real.pi / 180) ≤ 0 :=
      mul_nonpos_of_nonpos_of_nonneg hneg (by positivity)
    linarith
  have harg : |(-66.46 : ℝ) - (sunPos realMath (toJD solstice2000)).D| * RAD realMath
      = 66.46 * (Real.pi / 180) + Real.arcsin (sinDecl realMath (toJD solstice2000)) := by
    rw [abs_of_neg (by linarith), RAD_real, ← hD]
    ring
  have htan : 0 < Real.tan (66.46 * (Real.pi / 180)
      + Real.arcsin (sinDecl realMath (toJD solstice2000))) := by
    rw [Real.tan_eq_sin_div_cos]
    exact div_pos hs0 (by linarith)
  unfold asrAngle
  simp only [show realMath.tan = Real.tan from rfl, show realMath.atan = Real.arctan from rfl,
    harg]
  rw [if_neg (by linarith), DEG_real]
  have hone : (180 / Real.pi) * (Real.pi / 180) = 1 := by
    field_simp
  rw [mul_assoc, hone, mul_one]

/-- At latitude −66.46 on 2000-06-21 the Asr value is a number not later than
34 thousandths of an hour after solar noon. -/
theorem asr_latitude_m66_46 (md : ℝ) :
    ∃ a, asrTime realMath (sunPos realMath (toJD solstice2000)).D (-66.46) 1 md = Val.num a ∧
      a ≤ md + 0.0333 := by
  obtain ⟨hx1, hx2⟩ := sinDecl_solstice2000
  obtain ⟨hy1, hy2⟩ := cosDecl_solstice2000
  obtain ⟨⟨ha1, ha2⟩, ⟨hb1, hb2⟩⟩ := trig_latitude_66_46
  obtain ⟨hcz, hc1, hc2, hs0⟩ := zenith_latitude_m66_46
  have hang := asr_angle_latitude_m66_46
  have hlat : (-66.46 : ℝ) * (Real.pi / 180) = -(66.46 * (Real.pi / 180)) := by ring
  set zen := 66.46 * (Real.pi / 180) + Real.arcsin (sinDecl realMath (toJD solstice2000))
  obtain ⟨hsa1, hsa2⟩ := asr_sine_near_horizon (Real.cos zen) (Real.sin zen) (by linarith)
    hc2 hs0 (Real.sin_sq_add_cos_sq zen)
  rw [← Real.tan_eq_sin_div_cos] at hsa1 hsa2
  set sa := 1 / (1 + Real.tan zen) / √(1 + (1 / (1 + Real.tan zen)) ^ 2)
  set X := sinDecl realMath (toJD solstice2000)
  set y := √(1 - X ^ 2)
  set A := Real.sin (66.46 * (Real.pi / 180))
  set B := Real.cos (66.46 * (Real.pi / 180))
  have hBy1 : 0.36634 ≤ B * y :=
    le_trans (by norm_num) (mul_le_mul hb1 hy1 (by norm_num) (by linarith))
  have hBy0 : 0 < B * y := by linarith
  have hAX0 : 0 < A * X := mul_pos (by linarith) (by linarith)
  -- the numerator and denominator of cosH
  have hnum : -Real.sin (asrAngle realMath (sunPos realMath (toJD solstice2000)).D (-66.46) 1
        * (Real.pi / 180)) - Real.sin ((-66.46 : ℝ) * (Real.pi / 180)) * X = sa + A * X := by
    rw [hang, hlat, Real.sin_neg, Real.sin_neg, Real.sin_arctan]
    ring
  have hden : Real.cos ((-66.46 : ℝ) * (Real.pi / 180)) * y = B * y := by
    rw [hlat, Real.cos_neg]
  have hsa0 : 0 ≤ sa + A * X := by linarith
  have hle : sa + A * X ≤ B * y := by linarith
  have hval := angleTime_real_num (toJD solstice2000) (-66.46)
    (asrAngle realMath (sunPos realMath (toJD solstice2000)).D (-66.46) 1) md Dir.cw
    (by rw [hden]; exact hBy0.ne')
    (by rw [hnum, hden, abs_of_nonneg hsa0, abs_of_pos hBy0]; exact hle)
  rw [hnum, hden] at hval
  refine ⟨_, hval, ?_⟩
  simp only [if_neg (by decide : ¬ Dir.cw = Dir.ccw)]
  have := hour_angle_small (sa + A * X) (B * y) hBy0 (by linarith)
  linarith

theorem sin_deg_small (a : ℝ) (h0 : 0 ≤ a) (h1 : a ≤ 20) :
    0 ≤ Real.sin (a * (Real.pi / 180)) ∧ Real.sin (a * (Real.pi / 180)) ≤ 0.36 := by
  have hpi1 := Real.pi_gt_d6
  have hpi2 := Real.pi_lt_d6
  have ht0 : 0 ≤ a * (Real.pi / 180) := by positivity
  have ht1 : a * (Real.pi / 180) ≤ 0.35 := by nlinarith
  constructor
  · exact Real.sin_nonneg_of_nonneg_of_le_pi ht0 (by linarith)
  · exact le_trans (Real.sin_le ht0) (by linarith)

/-- At latitude −66.46 on 2000-06-21 every depression angle of at most 20°
is reached: `angleTime` returns a number. -/
theorem defined_latitude_m66_46 (angle md : ℝ) (dir : Dir) (h0 : 0 ≤ angle) (h1 : angle ≤ 20) :
    ∃ v, angleTime realMath (sunPos realMath (toJD solstice2000)).D (-66.46) angle md dir
      = Val.num v := by
  obtain ⟨hx1, hx2⟩ := sinDecl_solstice2000
  obtain ⟨hy1, hy2⟩ := cosDecl_solstice2000
  obtain ⟨⟨ha1, ha2⟩, ⟨hb1, hb2⟩⟩ := trig_latitude_66_46
  obtain ⟨hcz, hc1, hc2, hs0⟩ := zenith_latitude_m66_46
  obtain ⟨hS0, hS1⟩ := sin_deg_small angle h0 h1
  have hlat : (-66.46 : ℝ) * (Real.pi / 180) = -(66.46 * (Real.pi / 180)) := by ring
  rw [hcz] at hc1
  set X := sinDecl realMath (toJD solstice2000)
  set y := √(1 - X ^ 2)
  set A := Real.sin (66.46 * (Real.pi / 180))
  set B := Real.cos (66.46 * (Real.pi / 180))
  set S := Real.sin (angle * (Real.pi / 180))
  have hAX1 : 0.36456 ≤ A * X :=
    le_trans (by norm_num) (mul_le_mul ha1 hx1 (by norm_num) (by linarith))
  have hBy0 : 0 < B * y := by linarith
  have hnum : -S - Real.sin ((-66.46 : ℝ) * (Real.pi / 180)) * X = A * X - S := by
    rw [hlat, Real.sin_neg]; ring
  have hden : Real.cos ((-66.46 : ℝ) * (Real.pi / 180)) * y = B * y := by
    rw [hlat, Real.cos_neg]
  refine ⟨_, angleTime_real_num (toJD solstice2000) (-66.46) angle md dir ?_ ?_⟩
  · rw [hden]; exact hBy0.ne'
  · rw [hnum, hden, abs_of_nonneg (by linarith), abs_of_pos hBy0]
    linarith

/-- Evaluation at 2000-06-21, latitude −66.46, method 1: the six values are
numbers and Asr is not later than Dhuhr. -/
theorem asr_before_dhuhr :
    ∃ f s d a mg i : ℝ,
      (calcRaw realMath 0 solstice2000 (-66.46) 0 (some 1) "Libya").fajr = Val.num f ∧
      (calcRaw realMath 0 solstice2000 (-66.46) 0 (some 1) "Libya").sunrise = Val.num s ∧
      (calcRaw realMath 0 solstice2000 (-66.46) 0 (some 1) "Libya").dhuhr = Val.num d ∧
      (calcRaw realMath 0 solstice2000 (-66.46) 0 (some 1) "Libya").asr = Val.num a ∧
      (calcRaw realMath 0 solstice2000 (-66.46) 0 (some 1) "Libya").maghrib = Val.num mg ∧
      (calcRaw realMath 0 solstice2000 (-66.46) 0 (some 1) "Libya").isha = Val.num i ∧
      a ≤ d := by
  simp only [calcRaw, rawTimes]
  have hfajr : (resolveMethod (some 1) : Method ℝ).fajr = 18 := rfl
  have hisha : toNumber (resolveMethod (some 1) : Method ℝ).isha = 17 := rfl
  have htr : truthy (resolveMethod (some 1) : Method ℝ).ishaMin = false := rfl
  rw [hfajr, ishaOf_angle _ _ _ _ _ _ htr, hisha]
  obtain ⟨f, hf⟩ := defined_latitude_m66_46 18
    (midDay realMath (toJD solstice2000) 0 (resolveTz 0 "Libya")) Dir.ccw (by norm_num)
    (by norm_num)
  obtain ⟨s, hs⟩ := defined_latitude_m66_46 0.833
    (midDay realMath (toJD solstice2000) 0 (resolveTz 0 "Libya")) Dir.ccw (by norm_num)
    (by norm_num)
  obtain ⟨mg, hmg⟩ := defined_latitude_m66_46 0.833
    (midDay realMath (toJD solstice2000) 0 (resolveTz 0 "Libya")) Dir.cw (by norm_num)
    (by norm_num)
  obtain ⟨i, hi⟩ := defined_latitude_m66_46 17
    (midDay realMath (toJD solstice2000) 0 (resolveTz 0 "Libya")) Dir.cw (by norm_num)
    (by norm_num)
  obtain ⟨a, ha, hale⟩ := asr_latitude_m66_46
    (midDay realMath (toJD solstice2000) 0 (resolveTz 0 "Libya"))
  exact ⟨f, s, _, a, mg, i, hf, hs, rfl, ha, hmg, hi, hale⟩

/-! ### The order of the six values -/

section Inversion

variable {α : Type} [LinearOrderedField α]

theorem jsDiv_fin_inv (a b c : α) (h : jsDiv a b = JSQuot.fin c) : b ≠ 0 ∧ c = a / b := by
  unfold jsDiv at h
  by_cases hb : b = 0
  · rw [if_pos hb] at h
    split_ifs at h
  · rw [if_neg hb] at h
    exact ⟨hb, (JSQuot.fin.inj h).symm⟩

theorem angleTime_num_inv (m : JSMath α) (decl lat angle md v : α) (dir : Dir)
    (h : angleTime m decl lat angle md dir = Val.num v) :
    ∃ c, cosH m decl lat angle = JSQuot.fin c ∧ |c| ≤ 1 ∧
      v = if dir = Dir.ccw then md - m.acos c * DEG m / 15 else md + m.acos c * DEG m / 15 := by
  unfold angleTime at h
  cases hq : cosH m decl lat angle with
  | inf => rw [hq] at h; cases h
  | nan => rw [hq] at h; cases h
  | fin c =>
    rw [hq] at h
    by_cases hc : |c| > 1
    · simp [hc] at h
    · simp only [hc, if_false] at h
      exact ⟨c, rfl, not_lt.mp hc, (Val.num.inj h).symm⟩

end Inversion

/-- A numeric `angleTime` over the reals: the denominator of `cosH` is not
zero, the quotient is in `[-1, 1]`, and the value is `md ∓ acos(cosH)·DEG/15`. -/
theorem angleTime_real_inv (jd lat angle md v : ℝ) (dir : Dir)
    (h : angleTime realMath (sunPos realMath jd).D lat angle md dir = Val.num v) :
    Real.cos (lat * (Real.pi / 180)) * √(1 - sinDecl realMath jd ^ 2) ≠ 0 ∧
      |(-Real.sin (angle * (Real.pi / 180))
          - Real.sin (lat * (Real.pi / 180)) * sinDecl realMath jd) /
        (Real.cos (lat * (Real.pi / 180)) * √(1 - sinDecl realMath jd ^ 2))| ≤ 1 ∧
      v = if dir = Dir.ccw then
          md - Real.arccos ((-Real.sin (angle * (Real.pi / 180))
            - Real.sin (lat * (Real.pi / 180)) * sinDecl realMath jd) /
            (Real.cos (lat * (Real.pi / 180)) * √(1 - sinDecl realMath jd ^ 2)))
            * (180 / Real.pi) / 15
        else
          md + Real.arccos ((-Real.sin (angle * (Real.pi / 180))
            - Real.sin (lat * (Real.pi / 180)) * sinDecl realMath jd) /
            (Real.cos (lat * (Real.pi / 180)) * √(1 - sinDecl realMath jd ^ 2)))
            * (180 / Real.pi) / 15 := by
  obtain ⟨c, hq, hc, hv⟩ := angleTime_num_inv realMath _ lat angle md v dir h
  rw [cosH_real] at hq
  obtain ⟨hd, hcv⟩ := jsDiv_fin_inv _ _ _ hq
  subst hcv
  exact ⟨hd, hc, hv⟩

/-- The entries of `METHODS`: the Fajr angle is above 0.833° and at most 90°;
Isha is either the 90-minute offset or an angle above 0.833° and at most 90°. -/
theorem resolveMethod_real (methodNum : Option ℤ) :
    0.833 < (resolveMethod methodNum : Method ℝ).fajr ∧
      (resolveMethod methodNum : Method ℝ).fajr ≤ 90 ∧
      ((truthy (resolveMethod methodNum : Method ℝ).ishaMin = true ∧
          toNumber (resolveMethod methodNum : Method ℝ).ishaMin = 90) ∨
        (truthy (resolveMethod methodNum : Method ℝ).ishaMin = false ∧
          0.833 < toNumber (resolveMethod methodNum : Method ℝ).isha ∧
          toNumber (resolveMethod methodNum : Method ℝ).isha ≤ 90)) := by
  cases methodNum with
  | none =>
    simp only [resolveMethod, method5, truthy, toNumber, Option.getD]
    norm_num
  | some k =>
    simp only [resolveMethod]
    unfold METHODS
    split <;> simp only [Option.getD, method5, truthy, toNumber] <;> norm_num

/-- A deeper depression angle has a larger hour angle. -/
theorem hour_angle_lt (B y A X a1 a2 : ℝ) (hden : 0 < B * y)
    (ha0 : 0 ≤ a1) (ha : a1 < a2) (ha2 : a2 ≤ 90)
    (h1 : |(-Real.sin (a1 * (Real.pi / 180)) - A * X) / (B * y)| ≤ 1)
    (h2 : |(-Real.sin (a2 * (Real.pi / 180)) - A * X) / (B * y)| ≤ 1) :
    Real.arccos ((-Real.sin (a1 * (Real.pi / 180)) - A * X) / (B * y)) * (180 / Real.pi) / 15 <
      Real.arccos ((-Real.sin (a2 * (Real.pi / 180)) - A * X) / (B * y)) * (180 / Real.pi) / 15 := by
  have hpi := Real.pi_pos
  have hsin : Real.sin (a1 * (Real.pi / 180)) < Real.sin (a2 * (Real.pi / 180)) := by
    apply Real.sin_lt_sin_of_lt_of_le_pi_div_two
    · have : 0 ≤ a1 * (Real.pi / 180) := by positivity
      linarith
    · calc a2 * (Real.pi / 180) ≤ 90 * (Real.pi / 180) :=
          mul_le_mul_of_nonneg_right ha2 (by positivity)
        _ = Real.pi / 2 := by ring
    · exact mul_lt_mul_of_pos_right ha (by positivity)
  have hc : (-Real.sin (a2 * (Real.pi / 180)) - A * X) / (B * y) <
      (-Real.sin (a1 * (Real.pi / 180)) - A * X) / (B * y) :=
    div_lt_div_of_pos_right (by linarith) hden
  have harc := Real.strictAntiOn_arccos (abs_le.mp h2) (abs_le.mp h1) hc
  apply div_lt_div_of_pos_right _ (by norm_num)
  exact mul_lt_mul_of_pos_right harc (by positivity)

/-! ### The scenario of 2024-03-21 -/

theorem toJD_equinox2024 : (toJD equinox2024 : ℝ) = 2460390.5 := by
  rw [toJD_eq_int]; norm_num [equinox2024]

theorem meanAnomaly_equinox2024 : meanAnomaly (2460390.5 : ℝ) = 9075.65627674 := by
  unfold meanAnomaly; norm_num

theorem meanLongitude_equinox2024 : meanLongitude (2460390.5 : ℝ) = 8999.00272288 := by
  unfold meanLongitude; norm_num

theorem obliquity_equinox2024 : obliquity (2460390.5 : ℝ) = 23.43581562 := by
  unfold obliquity; norm_num

theorem sin_anomaly_equinox2024 :
    0.96882 ≤ Real.sin (9075.65627674 * (Real.pi / 180)) ∧
      Real.sin (9075.65627674 * (Real.pi / 180)) ≤ 0.96883 := by
  have e : (9075.65627674 : ℝ) = 75.65627674 + 360 * ((25 : ℤ) : ℝ) := by norm_num
  rw [e, sin_deg_add_360, sin_deg_complement]
  have e2 : (90 - 75.65627674 : ℝ) = 14.34372326 := by norm_num
  rw [e2]
  obtain ⟨h1, h2⟩ := cos_deg_enclosure 14.34372326 (by norm_num)
  exact ⟨le_trans (by norm_num) h1, le_trans h2 (by norm_num)⟩

theorem eclipticLongitude_equinox2024 :
    9000.838 ≤ eclipticLongitude realMath 2460390.5 ∧
      eclipticLongitude realMath 2460390.5 ≤ 9000.8782 := by
  unfold eclipticLongitude
  rw [meanAnomaly_equinox2024, meanLongitude_equinox2024, RAD_real]
  obtain ⟨h1, h2⟩ := sin_anomaly_equinox2024
  have h3 := Real.neg_one_le_sin (2 * 9075.65627674 * (Real.pi / 180))
  have h4 := Real.sin_le_one (2 * 9075.65627674 * (Real.pi / 180))
  show 9000.838 ≤ 8999.00272288 + 1.915 * Real.sin (9075.65627674 * (Real.pi / 180))
        + 0.020 * Real.sin (2 * 9075.65627674 * (Real.pi / 180)) ∧
      8999.00272288 + 1.915 * Real.sin (9075.65627674 * (Real.pi / 180))
        + 0.020 * Real.sin (2 * 9075.65627674 * (Real.pi / 180)) ≤ 9000.8782
  constructor <;> linarith

theorem cos_obliquity_equinox2024 :
    0.9175 ≤ Real.cos (23.43581562 * (Real.pi / 180)) ∧
      Real.cos (23.43581562 * (Real.pi / 180)) ≤ 0.91752 := by
  obtain ⟨h1, h2⟩ := cos_deg_enclosure 23.43581562 (by norm_num)
  exact ⟨le_trans (by norm_num) h1, le_trans h2 (by norm_num)⟩

theorem arctan_enclosure (w v : ℝ) (hv0 : 0 ≤ v) (hv1 : v ≤ 1)
    (hvw : v ≤ w * (1 - v ^ 2 / 2)) (hw0 : 0 ≤ w) :
    v ≤ Real.arctan w ∧ Real.arctan w ≤ w := by
  have hpi := Real.pi_gt_three
  constructor
  · have hcos : 0 < Real.cos v :=
      Real.cos_pos_of_mem_Ioo ⟨by linarith, by linarith⟩
    have hcl := Real.one_sub_sq_div_two_le_cos (x := v)
    have htan : Real.tan v ≤ w := by
      rw [Real.tan_eq_sin_div_cos, div_le_iff₀ hcos]
      have hs := Real.sin_le hv0
      have : w * (1 - v ^ 2 / 2) ≤ w * Real.cos v := mul_le_mul_of_nonneg_left hcl hw0
      linarith
    have := Real.arctan_strictMono.monotone htan
    rwa [Real.arctan_tan (by linarith) (by linarith)] at this
  · rcases eq_or_lt_of_le hw0 with h | h
    · rw [← h, Real.arctan_zero]
    · have hlt := Real.arctan_lt_pi_div_two w
      have hpos : 0 < Real.arctan w := by
        have := Real.arctan_strictMono h
        rwa [Real.arctan_zero] at this
      have := Real.lt_tan hpos hlt
      rw [Real.tan_arctan] at this
      exact this.le

/-- Enclosure of the right ascension `RA` on 2024-03-21. -/
theorem rightAscension_equinox2024 :
    0.767 ≤ rightAscension realMath 2460390.5 ∧ rightAscension realMath 2460390.5 ≤ 0.806 := by
  obtain ⟨hL1, hL2⟩ := eclipticLongitude_equinox2024
  obtain ⟨hc1, hc2⟩ := cos_obliquity_equinox2024
  have hpi1 := Real.pi_gt_d6
  have hpi2 := Real.pi_lt_d6
  unfold rightAscension
  rw [obliquity_equinox2024, RAD_real, DEG_real]
  set L := eclipticLongitude realMath 2460390.5
  have e : L = (L - 9000) + 360 * ((25 : ℤ) : ℝ) := by push_cast; ring
  rw [show realMath.cos = Real.cos from rfl, show realMath.sin = Real.sin from rfl,
    show realMath.atan2 = realAtan2 from rfl]
  rw [e, sin_deg_add_360, cos_deg_add_360]
  have hb := rad_bounds (L - 9000) (by linarith)
  set t := (L - 9000) * (Real.pi / 180)
  have ht1 : 0.014625 ≤ t := by
    have : (0.838 : ℝ) * (3.141592 / 180) ≤ (L - 9000) * (3.141592 / 180) :=
      mul_le_mul_of_nonneg_right (by linarith) (by norm_num)
    have : (0.014625 : ℝ) ≤ 0.838 * (3.141592 / 180) := by norm_num
    linarith [hb.1]
  have ht2 : t ≤ 0.015328 := by
    have : (L - 9000) * (3.141593 / 180) ≤ 0.8782 * (3.141593 / 180) :=
      mul_le_mul_of_nonneg_right (by linarith) (by norm_num)
    have : (0.8782 : ℝ) * (3.141593 / 180) ≤ 0.015328 := by norm_num
    linarith [hb.2]
  obtain ⟨hs1, hs2⟩ := sin_enclosure t 0.014625 0.015328 (by norm_num) ht1 ht2
  obtain ⟨hk1, hk2⟩ := cos_enclosure t 0.014625 0.015328 (by norm_num) ht1 ht2
  have hs1' : 0.014624 ≤ Real.sin t := le_trans (by norm_num) hs1
  have hs2' : Real.sin t ≤ 0.015328 := le_trans hs2 (by norm_num)
  have hk1' : 0.99988 ≤ Real.cos t := le_trans (by norm_num) hk1
  have hk2' : Real.cos t ≤ 1 := Real.cos_le_one t
  have hcospos : 0 < Real.cos t := by linarith
  set C := Real.cos (23.43581562 * (Real.pi / 180))
  unfold realAtan2
  rw [if_pos hcospos]
  have hw1 : 0.013417 ≤ C * Real.sin t / Real.cos t := by
    rw [le_div_iff₀ hcospos]
    have h1 : 0.9175 * 0.014624 ≤ C * Real.sin t :=
      mul_le_mul hc1 hs1' (by norm_num) (by linarith)
    have h2 : (0.013417 : ℝ) * Real.cos t ≤ 0.013417 * 1 :=
      mul_le_mul_of_nonneg_left hk2' (by norm_num)
    norm_num at h1 h2 ⊢
    linarith
  have hw2 : C * Real.sin t / Real.cos t ≤ 0.014066 := by
    rw [div_le_iff₀ hcospos]
    have h1 : C * Real.sin t ≤ 0.91752 * 0.015328 :=
      mul_le_mul hc2 hs2' (by linarith) (by norm_num)
    have h2 : (0.014066 : ℝ) * 0.99988 ≤ 0.014066 * Real.cos t :=
      mul_le_mul_of_nonneg_left hk1' (by norm_num)
    norm_num at h1 h2 ⊢
    linarith
  obtain ⟨ha1, ha2⟩ := arctan_enclosure (C * Real.sin t / Real.cos t) 0.0134 (by norm_num)
    (by norm_num) (by nlinarith) (by linarith)
  have hpos : 0 < Real.pi := Real.pi_pos
  constructor
  · rw [mul_div_assoc', le_div_iff₀ hpos]
    linarith
  · rw [mul_div_assoc', div_le_iff₀ hpos]
    linarith

/-- The Dhuhr value on 2024-03-21 at longitude 31.2 with offset +2. -/
theorem dhuhr_value_equinox2024 :
    -587.9291 ≤ midDay realMath (toJD equinox2024) 31.2 2 + 0.0333 ∧
      midDay realMath (toJD equinox2024) 31.2 2 + 0.0333 ≤ -587.9264 := by
  obtain ⟨h1, h2⟩ := rightAscension_equinox2024
  rw [toJD_equinox2024]
  show -587.9291 ≤ 12 - (meanLongitude (2460390.5 : ℝ) - rightAscension realMath 2460390.5) / 15
        - 31.2 / 15 + 2 + 0.0333 ∧
      12 - (meanLongitude (2460390.5 : ℝ) - rightAscension realMath 2460390.5) / 15
        - 31.2 / 15 + 2 + 0.0333 ≤ -587.9264
  rw [meanLongitude_equinox2024]
  constructor <;> linarith

theorem toHHMM_dhuhr_equinox2024 :
    toHHMM (Val.num (midDay realMath (toJD equinox2024) 31.2 2 + 0.0333)) = "12:04" := by
  obtain ⟨h1, h2⟩ := dhuhr_value_equinox2024
  set h := midDay realMath (toJD equinox2024) 31.2 2 + 0.0333
  have hfl : ⌊h / 24⌋ = -25 := by
    rw [Int.floor_eq_iff]
    push_cast
    constructor <;> linarith
  have hmin : minuteOfDay h = 724 := by
    unfold minuteOfDay mod24
    rw [hfl]
    have : ⌊60 * (h - 24 * ((-25 : ℤ) : ℝ)) + 1 / 2⌋ = 724 := by
      rw [Int.floor_eq_iff]
      push_cast
      constructor <;> linarith
    rw [this]
    rfl
  rw [toHHMM_num, hmin]
  decide


/-! ### Higher-order enclosures -/

theorem sin_ge_septic (x : ℝ) (hx : 0 ≤ x) :
    x - x ^ 3 / 6 + x ^ 5 / 120 - x ^ 7 / 5040 ≤ Real.sin x := by
  have key := nonneg_of_hasDerivAt_nonneg
    (fun t => Real.sin t - (t - t ^ 3 / 6 + t ^ 5 / 120 - t ^ 7 / 5040))
    (fun t => Real.cos t - (1 - t ^ 2 / 2 + t ^ 4 / 24 - t ^ 6 / 720)) ?_ (by simp) ?_ x hx
  · simpa using key
  · intro t
    have h := (Real.hasDerivAt_sin t).sub
      ((((hasDerivAt_id t).sub ((hasDerivAt_pow 3 t).div_const 6)).add
        ((hasDerivAt_pow 5 t).div_const 120)).sub ((hasDerivAt_pow 7 t).div_const 5040))
    convert h using 1
    simp; ring
  · intro t ht
    have := cos_ge_sextic t ht
    linarith

theorem cos_le_octic (x : ℝ) (hx : 0 ≤ x) :
    Real.cos x ≤ 1 - x ^ 2 / 2 + x ^ 4 / 24 - x ^ 6 / 720 + x ^ 8 / 40320 := by
  have key := nonneg_of_hasDerivAt_nonneg
    (fun t => (1 - t ^ 2 / 2 + t ^ 4 / 24 - t ^ 6 / 720 + t ^ 8 / 40320) - Real.cos t)
    (fun t => Real.sin t - (t - t ^ 3 / 6 + t ^ 5 / 120 - t ^ 7 / 5040)) ?_ (by simp) ?_ x hx
  · simpa using key
  · intro t
    have h := (((((hasDerivAt_const t (1 : ℝ)).sub ((hasDerivAt_pow 2 t).div_const 2)).add
      ((hasDerivAt_pow 4 t).div_const 24)).sub ((hasDerivAt_pow 6 t).div_const 720)).add
      ((hasDerivAt_pow 8 t).div_const 40320)).sub (Real.hasDerivAt_cos t)
    convert h using 1
    simp; ring
  · intro t ht
    have := sin_ge_septic t ht
    linarith

theorem sin_enclosure_fine (t lo hi : ℝ) (h0 : 0 ≤ lo) (hl : lo ≤ t) (hh : t ≤ hi) :
    lo - hi ^ 3 / 6 + lo ^ 5 / 120 - hi ^ 7 / 5040 ≤ Real.sin t ∧
      Real.sin t ≤ hi - lo ^ 3 / 6 + hi ^ 5 / 120 := by
  have ht : 0 ≤ t := le_trans h0 hl
  have h3 : t ^ 3 ≤ hi ^ 3 := pow_le_pow_left₀ ht hh 3
  have h3' : lo ^ 3 ≤ t ^ 3 := pow_le_pow_left₀ h0 hl 3
  have h5 : t ^ 5 ≤ hi ^ 5 := pow_le_pow_left₀ ht hh 5
  have h5' : lo ^ 5 ≤ t ^ 5 := pow_le_pow_left₀ h0 hl 5
  have h7 : t ^ 7 ≤ hi ^ 7 := pow_le_pow_left₀ ht hh 7
  have := sin_ge_septic t ht
  have := sin_le_quintic t ht
  constructor <;> linarith

theorem cos_enclosure_fine (t lo hi : ℝ) (h0 : 0 ≤ lo) (hl : lo ≤ t) (hh : t ≤ hi) :
    1 - hi ^ 2 / 2 + lo ^ 4 / 24 - hi ^ 6 / 720 ≤ Real.cos t ∧
      Real.cos t ≤ 1 - lo ^ 2 / 2 + hi ^ 4 / 24 - lo ^ 6 / 720 + hi ^ 8 / 40320 := by
  have ht : 0 ≤ t := le_trans h0 hl
  have h2 : t ^ 2 ≤ hi ^ 2 := pow_le_pow_left₀ ht hh 2
  have h2' : lo ^ 2 ≤ t ^ 2 := pow_le_pow_left₀ h0 hl 2
  have h4 : t ^ 4 ≤ hi ^ 4 := pow_le_pow_left₀ ht hh 4
  have h4' : lo ^ 4 ≤ t ^ 4 := pow_le_pow_left₀ h0 hl 4
  have h6 : t ^ 6 ≤ hi ^ 6 := pow_le_pow_left₀ ht hh 6
  have h6' : lo ^ 6 ≤ t ^ 6 := pow_le_pow_left₀ h0 hl 6
  have h8 : t ^ 8 ≤ hi ^ 8 := pow_le_pow_left₀ ht hh 8
  have := cos_ge_sextic t ht
  have := cos_le_octic t ht
  constructor <;> linarith

/-- Fine enclosure of the sine of `a` degrees, `a ≥ 0`. -/
theorem sin_deg_enclosure_fine (a : ℝ) (ha : 0 ≤ a) :
    a * (3.141592 / 180) - (a * (3.141593 / 180)) ^ 3 / 6 + (a * (3.141592 / 180)) ^ 5 / 120
        - (a * (3.141593 / 180)) ^ 7 / 5040 ≤ Real.sin (a * (Real.pi / 180)) ∧
      Real.sin (a * (Real.pi / 180)) ≤
        a * (3.141593 / 180) - (a * (3.141592 / 180)) ^ 3 / 6 + (a * (3.141593 / 180)) ^ 5 / 120 :=
  sin_enclosure_fine _ _ _ (by positivity) (rad_bounds a ha).1 (rad_bounds a ha).2

/-- Fine enclosure of the cosine of `a` degrees, `a ≥ 0`. -/
theorem cos_deg_enclosure_fine (a : ℝ) (ha : 0 ≤ a) :
    1 - (a * (3.141593 / 180)) ^ 2 / 2 + (a * (3.141592 / 180)) ^ 4 / 24
        - (a * (3.141593 / 180)) ^ 6 / 720 ≤ Real.cos (a * (Real.pi / 180)) ∧
      Real.cos (a * (Real.pi / 180)) ≤
        1 - (a * (3.141592 / 180)) ^ 2 / 2 + (a * (3.141593 / 180)) ^ 4 / 24
          - (a * (3.141592 / 180)) ^ 6 / 720 + (a * (3.141593 / 180)) ^ 8 / 40320 :=
  cos_enclosure_fine _ _ _ (by positivity) (rad_bounds a ha).1 (rad_bounds a ha).2

/-! ### The sun on 2000-06-21, fine enclosures -/

theorem sin_anomaly_solstice2000_fine :
    0.232436293 ≤ Real.sin (526.55944802 * (Real.pi / 180)) ∧
      Real.sin (526.55944802 * (Real.pi / 180)) ≤ 0.232436378 := by
  have e : (526.55944802 : ℝ) = (180 - 13.44055198) + 360 * ((1 : ℤ) : ℝ) := by norm_num
  rw [e, sin_deg_add_360, sin_deg_supplement]
  obtain ⟨h1, h2⟩ := sin_deg_enclosure_fine 13.44055198 (by norm_num)
  exact ⟨le_trans (by norm_num) h1, le_trans h2 (by norm_num)⟩

theorem sin_double_anomaly_solstice2000 :
    -0.45214163 ≤ Real.sin (2 * 526.55944802 * (Real.pi / 180)) ∧
      Real.sin (2 * 526.55944802 * (Real.pi / 180)) ≤ -0.45214046 := by
  have e : (2 * 526.55944802 : ℝ) = -26.88110396 + 360 * ((3 : ℤ) : ℝ) := by norm_num
  rw [e, sin_deg_add_360]
  have e2 : (-26.88110396 : ℝ) * (Real.pi / 180) = -(26.88110396 * (Real.pi / 180)) := by ring
  rw [e2, Real.sin_neg]
  obtain ⟨h1, h2⟩ := sin_deg_enclosure_fine 26.88110396 (by norm_num)
  have h1' : 0.45214046 ≤ Real.sin (26.88110396 * (Real.pi / 180)) :=
    le_trans (by norm_num) h1
  have h2' : Real.sin (26.88110396 * (Real.pi / 180)) ≤ 0.45214163 :=
    le_trans h2 (by norm_num)
  constructor <;> linarith

theorem eclipticLongitude_solstice2000_fine :
    449.9335949 ≤ eclipticLongitude realMath 2451716.5 ∧
      eclipticLongitude realMath 2451716.5 ≤ 449.9335951 := by
  unfold eclipticLongitude
  rw [meanAnomaly_solstice2000, meanLongitude_solstice2000, RAD_real]
  obtain ⟨h1, h2⟩ := sin_anomaly_solstice2000_fine
  obtain ⟨h3, h4⟩ := sin_double_anomaly_solstice2000
  show 449.9335949 ≤ 449.49752224 + 1.915 * Real.sin (526.55944802 * (Real.pi / 180))
        + 0.020 * Real.sin (2 * 526.55944802 * (Real.pi / 180)) ∧
      449.49752224 + 1.915 * Real.sin (526.55944802 * (Real.pi / 180))
        + 0.020 * Real.sin (2 * 526.55944802 * (Real.pi / 180)) ≤ 449.9335951
  constructor <;> linarith

theorem sin_longitude_solstice2000_fine :
    0.9999993283 ≤ Real.sin (eclipticLongitude realMath 2451716.5 * (Real.pi / 180)) ∧
      Real.sin (eclipticLongitude realMath 2451716.5 * (Real.pi / 180)) ≤ 0.9999993284 := by
  obtain ⟨h1, h2⟩ := eclipticLongitude_solstice2000_fine
  set L := eclipticLongitude realMath 2451716.5
  have e : L = (90 - (450 - L)) + 360 * ((1 : ℤ) : ℝ) := by push_cast; ring
  rw [e, sin_deg_add_360, sin_deg_complement]
  have e2 : (90 - (90 - (450 - L))) = 450 - L := by ring
  rw [e2]
  have hb := rad_bounds (450 - L) (by linarith)
  have hlo : (0.00115898 : ℝ) ≤ (450 - L) * (Real.pi / 180) := by
    have : (0.0664049 : ℝ) * (3.141592 / 180) ≤ (450 - L) * (3.141592 / 180) :=
      mul_le_mul_of_nonneg_right (by linarith) (by norm_num)
    have : (0.00115898 : ℝ) ≤ 0.0664049 * (3.141592 / 180) := by norm_num
    linarith [hb.1]
  have hhi : (450 - L) * (Real.pi / 180) ≤ 0.00115899 := by
    have : (450 - L) * (3.141593 / 180) ≤ 0.0664051 * (3.141593 / 180) :=
      mul_le_mul_of_nonneg_right (by linarith) (by norm_num)
    have : (0.0664051 : ℝ) * (3.141593 / 180) ≤ 0.00115899 := by norm_num
    linarith [hb.2]
  obtain ⟨c1, c2⟩ := cos_enclosure _ _ _ (by norm_num) hlo hhi
  exact ⟨le_trans (by norm_num) c1, le_trans c2 (by norm_num)⟩

/-- Fine enclosure of the sine of the declination on 2000-06-21. -/
theorem sinDecl_solstice2000_fine :
    0.397771147 ≤ sinDecl realMath (toJD solstice2000) ∧
      sinDecl realMath (toJD solstice2000) ≤ 0.397771671 := by
  rw [toJD_solstice2000]
  unfold sinDecl
  rw [obliquity_solstice2000, RAD_real]
  obtain ⟨hl1, hl2⟩ := sin_longitude_solstice2000_fine
  obtain ⟨he1, he2⟩ := sin_deg_enclosure_fine 23.43893826 (by norm_num)
  show 0.397771147 ≤ Real.sin (23.43893826 * (Real.pi / 180))
        * Real.sin (eclipticLongitude realMath 2451716.5 * (Real.pi / 180)) ∧
      Real.sin (23.43893826 * (Real.pi / 180))
        * Real.sin (eclipticLongitude realMath 2451716.5 * (Real.pi / 180)) ≤ 0.397771671
  have e1 : (0.397771415 : ℝ) ≤ Real.sin (23.43893826 * (Real.pi / 180)) :=
    le_trans (by norm_num) he1
  have e2 : Real.sin (23.43893826 * (Real.pi / 180)) ≤ 0.397771938 :=
    le_trans he2 (by norm_num)
  constructor
  · calc (0.397771147 : ℝ) ≤ 0.397771415 * 0.9999993283 := by norm_num
      _ ≤ Real.sin (23.43893826 * (Real.pi / 180))
          * Real.sin (eclipticLongitude realMath 2451716.5 * (Real.pi / 180)) :=
        mul_le_mul e1 hl1 (by norm_num) (by linarith)
  · calc Real.sin (23.43893826 * (Real.pi / 180))
          * Real.sin (eclipticLongitude realMath 2451716.5 * (Real.pi / 180))
        ≤ 0.397771938 * 0.9999993284 := mul_le_mul e2 hl2 (by linarith) (by norm_num)
      _ ≤ 0.397771671 := by norm_num

/-- Fine enclosure of the cosine of the declination on 2000-06-21. -/
theorem cosDecl_solstice2000_fine :
    0.917484439 ≤ √(1 - sinDecl realMath (toJD solstice2000) ^ 2) ∧
      √(1 - sinDecl realMath (toJD solstice2000) ^ 2) ≤ 0.917484668 := by
  obtain ⟨h1, h2⟩ := sinDecl_solstice2000_fine
  set x := sinDecl realMath (toJD solstice2000)
  have hx0 : 0 ≤ x := by linarith
  have hsq1 : x ^ 2 ≤ 0.397771671 ^ 2 := pow_le_pow_left₀ hx0 h2 2
  have hsq2 : (0.397771147 : ℝ) ^ 2 ≤ x ^ 2 := pow_le_pow_left₀ (by norm_num) h1 2
  constructor
  · apply Real.le_sqrt_of_sq_le
    have : (0.917484439 : ℝ) ^ 2 ≤ 1 - 0.397771671 ^ 2 := by norm_num
    linarith
  · rw [Real.sqrt_le_left (by norm_num)]
    have : 1 - (0.397771147 : ℝ) ^ 2 ≤ 0.917484668 ^ 2 := by norm_num
    linarith

/-! ### Latitude −67.3937 on 2000-06-21 -/

/-- The Asr angle (radians) at a southern latitude `-lat0` when the
declination is northern. -/
theorem asr_angle_south (jd lat0 : ℝ) (hlat : 0 ≤ lat0) (hX : 0 < sinDecl realMath jd)
    (hne : 1 + Real.tan (lat0 * (Real.pi / 180) + Real.arcsin (sinDecl realMath jd)) ≠ 0) :
    asrAngle realMath (sunPos realMath jd).D (-lat0) 1 * (Real.pi / 180) =
      -Real.arctan (1 / (1 + Real.tan (lat0 * (Real.pi / 180)
        + Real.arcsin (sinDecl realMath jd)))) := by
  have hD : (sunPos realMath jd).D * (Real.pi / 180) = Real.arcsin (sinDecl realMath jd) :=
    decl_rad _
  have hpos : 0 < Real.arcsin (sinDecl realMath jd) := Real.arcsin_pos.mpr hX
  have hDpos : 0 < (sunPos realMath jd).D := by
    by_contra hneg
    push_neg at hneg
    have : (sunPos realMath jd).D * (Real.pi / 180) ≤ 0 :=
      mul_nonpos_of_nonpos_of_nonneg hneg (by positivity)
    linarith
  have harg : |-lat0 - (sunPos realMath jd).D| * RAD realMath
      = lat0 * (Real.pi / 180) + Real.arcsin (sinDecl realMath jd) := by
    rw [abs_of_neg (by linarith), RAD_real, ← hD]
    ring
  unfold asrAngle
  simp only [show realMath.tan = Real.tan from rfl, show realMath.atan = Real.arctan from rfl,
    harg]
  rw [if_neg hne, DEG_real]
  have hone : (180 / Real.pi) * (Real.pi / 180) = 1 := by
    field_simp
  rw [mul_assoc, hone, mul_one]

theorem trig_latitude_67_3937 :
    (0.923167923 ≤ Real.sin (67.3937 * (Real.pi / 180)) ∧
        Real.sin (67.3937 * (Real.pi / 180)) ≤ 0.923167989) ∧
      (0.384396746 ≤ Real.cos (67.3937 * (Real.pi / 180)) ∧
        Real.cos (67.3937 * (Real.pi / 180)) ≤ 0.384397178) := by
  rw [sin_deg_complement 67.3937, cos_deg_complement 67.3937]
  have e : (90 - 67.3937 : ℝ) = 22.6063 := by norm_num
  rw [e]
  obtain ⟨c1, c2⟩ := cos_deg_enclosure_fine 22.6063 (by norm_num)
  obtain ⟨s1, s2⟩ := sin_deg_enclosure_fine 22.6063 (by norm_num)
  refine ⟨⟨le_trans ?_ c1, le_trans c2 ?_⟩, ⟨le_trans ?_ s1, le_trans s2 ?_⟩⟩ <;> norm_num

theorem sin_sunset_angle_fine :
    0.0145380774 ≤ Real.sin (0.833 * (Real.pi / 180)) ∧
      Real.sin (0.833 * (Real.pi / 180)) ≤ 0.0145380822 := by
  obtain ⟨hs1, hs2⟩ := sin_deg_enclosure_fine 0.833 (by norm_num)
  exact ⟨le_trans (by norm_num) hs1, le_trans hs2 (by norm_num)⟩

/-- The products entering `cosH` at latitude −67.3937 on 2000-06-21. -/
theorem products_latitude_m67_3937 :
    (0.352678032 ≤ Real.cos (67.3937 * (Real.pi / 180))
          * √(1 - sinDecl realMath (toJD solstice2000) ^ 2) ∧
      Real.cos (67.3937 * (Real.pi / 180))
          * √(1 - sinDecl realMath (toJD solstice2000) ^ 2) ≤ 0.352678518) ∧
    (0.367209563 ≤ Real.sin (67.3937 * (Real.pi / 180)) * sinDecl realMath (toJD solstice2000) ∧
      Real.sin (67.3937 * (Real.pi / 180)) * sinDecl realMath (toJD solstice2000)
        ≤ 0.367210074) := by
  obtain ⟨hx1, hx2⟩ := sinDecl_solstice2000_fine
  obtain ⟨hy1, hy2⟩ := cosDecl_solstice2000_fine
  obtain ⟨⟨ha1, ha2⟩, ⟨hb1, hb2⟩⟩ := trig_latitude_67_3937
  refine ⟨⟨?_, ?_⟩, ⟨?_, ?_⟩⟩
  · exact le_trans (by norm_num) (mul_le_mul hb1 hy1 (by norm_num) (by linarith))
  · exact le_trans (mul_le_mul hb2 hy2 (by linarith) (by norm_num)) (by norm_num)
  · exact le_trans (by norm_num) (mul_le_mul ha1 hx1 (by norm_num) (by linarith))
  · exact le_trans (mul_le_mul ha2 hx2 (by linarith) (by norm_num)) (by norm_num)

/-- The zenith distance `|lat − decl|` (radians) at latitude −67.3937 on
2000-06-21 is just above a right angle. -/
theorem zenith_latitude_m67_3937 :
    Real.cos (67.3937 * (Real.pi / 180) + Real.arcsin (sinDecl realMath (toJD solstice2000))) =
        Real.cos (67.3937 * (Real.pi / 180)) * √(1 - sinDecl realMath (toJD solstice2000) ^ 2)
          - Real.sin (67.3937 * (Real.pi / 180)) * sinDecl realMath (toJD solstice2000) ∧
      0 < Real.sin (67.3937 * (Real.pi / 180)
        + Real.arcsin (sinDecl realMath (toJD solstice2000))) := by
  obtain ⟨hx1, hx2⟩ := sinDecl_solstice2000_fine
  obtain ⟨hy1, hy2⟩ := cosDecl_solstice2000_fine
  obtain ⟨⟨ha1, ha2⟩, ⟨hb1, hb2⟩⟩ := trig_latitude_67_3937
  rw [Real.cos_add, Real.sin_add, Real.cos_arcsin,
    Real.sin_arcsin (sinDecl_real_mem _).1 (sinDecl_real_mem _).2]
  refine ⟨rfl, ?_⟩
  have h1 : 0 < Real.sin (67.3937 * (Real.pi / 180))
      * √(1 - sinDecl realMath (toJD solstice2000) ^ 2) :=
    mul_pos (by linarith) (by linarith)
  have h2 : 0 < Real.cos (67.3937 * (Real.pi / 180)) * sinDecl realMath (toJD solstice2000) :=
    mul_pos (by linarith) (by linarith)
  linarith

/-- The sine of the Asr angle when the noon sun is just below the horizon:
with `c < 0`, `s` the cosine and sine of the zenith distance, the sine of
`atan(1 / (1 + tan))` is below `c` and below `-0.01455`. -/
theorem asr_sine_below_horizon (c s : ℝ) (hc1 : -0.0146 ≤ c) (hc2 : c ≤ -0.0144) (hs0 : 0 < s)
    (hcs : s ^ 2 + c ^ 2 = 1) :
    1 + s / c ≠ 0 ∧
      1 / (1 + s / c) / √(1 + (1 / (1 + s / c)) ^ 2) ≤ c ∧
      1 / (1 + s / c) / √(1 + (1 / (1 + s / c)) ^ 2) ≤ -0.01455 ∧
      -0.0149 ≤ 1 / (1 + s / c) / √(1 + (1 / (1 + s / c)) ^ 2) := by
  have hc0 : c < 0 := by linarith
  have hcne : c ≠ 0 := hc0.ne
  have hs1 : s ≤ 1 := by nlinarith [sq_nonneg c]
  have hs2 : 0.99 ≤ s := by nlinarith
  have hpos : 0 < c + s := by linarith
  have hx : 1 + s / c = (c + s) / c := by field_simp
  have hne : 1 + s / c ≠ 0 := by
    rw [hx]
    exact div_ne_zero hpos.ne' hcne
  refine ⟨hne, ?_⟩
  have hu : 1 / (1 + s / c) = c / (c + s) := by
    rw [hx, one_div_div]
  rw [hu]
  set u := c / (c + s) with hudef
  have hu1 : u ≤ c - c ^ 2 := by
    rw [hudef, div_le_iff₀ hpos]
    nlinarith [sq_nonneg c, mul_nonneg (sq_nonneg c) (sub_nonneg.mpr hs1)]
  have hu2 : -0.0149 ≤ u := by
    rw [hudef, le_div_iff₀ hpos]
    nlinarith
  have hu3 : u ≤ -0.0146 := by nlinarith
  have husq : u ^ 2 ≤ 0.0149 ^ 2 := by nlinarith
  have hr1 : 1 ≤ √(1 + u ^ 2) := by
    rw [Real.le_sqrt (by norm_num) (by positivity)]
    nlinarith [sq_nonneg u]
  have hr2 : √(1 + u ^ 2) ≤ 1 + u ^ 2 := by
    rw [Real.sqrt_le_left (by positivity)]
    nlinarith [sq_nonneg u, sq_nonneg (u ^ 2)]
  have hrpos : 0 < √(1 + u ^ 2) := by linarith
  refine ⟨?_, ?_, ?_⟩
  · rw [div_le_iff₀ hrpos]
    nlinarith
  · rw [div_le_iff₀ hrpos]
    nlinarith
  · rw [le_div_iff₀ hrpos]
    nlinarith

/-- At latitude −67.3937 on 2000-06-21 every depression angle whose sine is
between 0.014533 and 0.36 is reached. -/
theorem defined_latitude_m67_3937 (angle md : ℝ) (dir : Dir)
    (h0 : 0.014533 ≤ Real.sin (angle * (Real.pi / 180)))
    (h1 : Real.sin (angle * (Real.pi / 180)) ≤ 0.36) :
    ∃ v, angleTime realMath (sunPos realMath (toJD solstice2000)).D (-67.3937) angle md dir
      = Val.num v := by
  obtain ⟨⟨hBy1, hBy2⟩, ⟨hAX1, hAX2⟩⟩ := products_latitude_m67_3937
  have hlat : (-67.3937 : ℝ) * (Real.pi / 180) = -(67.3937 * (Real.pi / 180)) := by ring
  set X := sinDecl realMath (toJD solstice2000)
  set y := √(1 - X ^ 2)
  set A := Real.sin (67.3937 * (Real.pi / 180))
  set B := Real.cos (67.3937 * (Real.pi / 180))
  set S := Real.sin (angle * (Real.pi / 180))
  have hBy0 : 0 < B * y := by linarith
  have hnum : -S - Real.sin ((-67.3937 : ℝ) * (Real.pi / 180)) * X = A * X - S := by
    rw [hlat, Real.sin_neg]; ring
  have hden : Real.cos ((-67.3937 : ℝ) * (Real.pi / 180)) * y = B * y := by
    rw [hlat, Real.cos_neg]
  refine ⟨_, angleTime_real_num (toJD solstice2000) (-67.3937) angle md dir ?_ ?_⟩
  · rw [hden]; exact hBy0.ne'
  · rw [hnum, hden, abs_of_nonneg (by linarith), abs_of_pos hBy0]
    linarith

/-- At latitude −67.3937 on 2000-06-21 Maghrib and Asr are numbers, Maghrib
is not later than 0.0333 h after solar noon, and not later than Asr. -/
theorem maghrib_latitude_m67_3937 (md : ℝ) :
    ∃ mg a,
      angleTime realMath (sunPos realMath (toJD solstice2000)).D (-67.3937) 0.833 md Dir.cw
        = Val.num mg ∧
      asrTime realMath (sunPos realMath (toJD solstice2000)).D (-67.3937) 1 md = Val.num a ∧
      mg ≤ md + 0.0333 ∧ mg ≤ a := by
  obtain ⟨hx1, hx2⟩ := sinDecl_solstice2000_fine
  obtain ⟨⟨hBy1, hBy2⟩, ⟨hAX1, hAX2⟩⟩ := products_latitude_m67_3937
  obtain ⟨hS1, hS2⟩ := sin_sunset_angle_fine
  obtain ⟨hcz, hs0⟩ := zenith_latitude_m67_3937
  have hlat : (-67.3937 : ℝ) * (Real.pi / 180) = -(67.3937 * (Real.pi / 180)) := by ring
  set zen := 67.3937 * (Real.pi / 180) + Real.arcsin (sinDecl realMath (toJD solstice2000))
  have hc1 : -0.0146 ≤ Real.cos zen := by rw [hcz]; linarith
  have hc2 : Real.cos zen ≤ -0.0144 := by rw [hcz]; linarith
  obtain ⟨hne, hsa1, hsa2, hsa3⟩ := asr_sine_below_horizon (Real.cos zen) (Real.sin zen)
    hc1 hc2 hs0 (Real.sin_sq_add_cos_sq zen)
  rw [← Real.tan_eq_sin_div_cos] at hne hsa1 hsa2 hsa3
  have hang := asr_angle_south (toJD solstice2000) 67.3937 (by norm_num) (by linarith) hne
  rw [hcz] at hsa1
  set sa := 1 / (1 + Real.tan zen) / √(1 + (1 / (1 + Real.tan zen)) ^ 2)
  set X := sinDecl realMath (toJD solstice2000)
  set y := √(1 - X ^ 2)
  set A := Real.sin (67.3937 * (Real.pi / 180))
  set B := Real.cos (67.3937 * (Real.pi / 180))
  set S := Real.sin (0.833 * (Real.pi / 180))
  have hBy0 : 0 < B * y := by linarith
  have hden : Real.cos ((-67.3937 : ℝ) * (Real.pi / 180)) * y = B * y := by
    rw [hlat, Real.cos_neg]
  -- Maghrib
  have hnumM : -S - Real.sin ((-67.3937 : ℝ) * (Real.pi / 180)) * X = A * X - S := by
    rw [hlat, Real.sin_neg]; ring
  have hM := angleTime_real_num (toJD solstice2000) (-67.3937) 0.833 md Dir.cw
    (by rw [hden]; exact hBy0.ne')
    (by
      show |-S - Real.sin ((-67.3937 : ℝ) * (Real.pi / 180)) * X|
        ≤ |Real.cos ((-67.3937 : ℝ) * (Real.pi / 180)) * y|
      rw [hnumM, hden, abs_of_nonneg (by linarith), abs_of_pos hBy0]
      linarith)
  -- Asr
  have hnumA : -Real.sin (asrAngle realMath (sunPos realMath (toJD solstice2000)).D (-67.3937) 1
        * (Real.pi / 180)) - Real.sin ((-67.3937 : ℝ) * (Real.pi / 180)) * X = sa + A * X := by
    have e : asrAngle realMath (sunPos realMath (toJD solstice2000)).D (-67.3937) 1
        = asrAngle realMath (sunPos realMath (toJD solstice2000)).D (-(67.3937 : ℝ)) 1 := by
      norm_num
    rw [e, hang, hlat, Real.sin_neg, Real.sin_neg, Real.sin_arctan]
    ring
  have hA := angleTime_real_num (toJD solstice2000) (-67.3937)
    (asrAngle realMath (sunPos realMath (toJD solstice2000)).D (-67.3937) 1) md Dir.cw
    (by rw [hden]; exact hBy0.ne')
    (by rw [hnumA, hden, abs_of_nonneg (by linarith), abs_of_pos hBy0]; linarith)
  have hM' := hM
  change angleTime realMath (sunPos realMath (toJD solstice2000)).D (-67.3937) 0.833 md Dir.cw
    = Val.num (if Dir.cw = Dir.ccw then
        md - Real.arccos ((-S - Real.sin ((-67.3937 : ℝ) * (Real.pi / 180)) * X) /
          (Real.cos ((-67.3937 : ℝ) * (Real.pi / 180)) * y)) * (180 / Real.pi) / 15
      else
        md + Real.arccos ((-S - Real.sin ((-67.3937 : ℝ) * (Real.pi / 180)) * X) /
          (Real.cos ((-67.3937 : ℝ) * (Real.pi / 180)) * y)) * (180 / Real.pi) / 15) at hM'
  rw [hnumM, hden] at hM'
  rw [hnumA, hden] at hA
  simp only [if_neg (by decide : ¬ Dir.cw = Dir.ccw)] at hM' hA
  refine ⟨_, _, hM', hA, ?_, ?_⟩
  · have := hour_angle_small (A * X - S) (B * y) hBy0 (by linarith)
    linarith
  · have := hour_angle_mono ((sa + A * X) / (B * y)) ((A * X - S) / (B * y))
      (div_le_div_of_nonneg_right (by linarith) hBy0.le)
    linarith

/-- Evaluation at 2000-06-21, latitude −67.3937, method 1: the six values are
numbers, and Maghrib is later neither than Dhuhr nor than Asr. -/
theorem maghrib_before_dhuhr :
    ∃ f s d a mg i : ℝ,
      (calcRaw realMath 0 solstice2000 (-67.3937) 0 (some 1) "Libya").fajr = Val.num f ∧
      (calcRaw realMath 0 solstice2000 (-67.3937) 0 (some 1) "Libya").sunrise = Val.num s ∧
      (calcRaw realMath 0 solstice2000 (-67.3937) 0 (some 1) "Libya").dhuhr = Val.num d ∧
      (calcRaw realMath 0 solstice2000 (-67.3937) 0 (some 1) "Libya").asr = Val.num a ∧
      (calcRaw realMath 0 solstice2000 (-67.3937) 0 (some 1) "Libya").maghrib = Val.num mg ∧
      (calcRaw realMath 0 solstice2000 (-67.3937) 0 (some 1) "Libya").isha = Val.num i ∧
      mg ≤ d ∧ mg ≤ a := by
  simp only [calcRaw, rawTimes]
  have hfajr : (resolveMethod (some 1) : Method ℝ).fajr = 18 := rfl
  have hisha : toNumber (resolveMethod (some 1) : Method ℝ).isha = 17 := rfl
  have htr : truthy (resolveMethod (some 1) : Method ℝ).ishaMin = false := rfl
  rw [hfajr, ishaOf_angle _ _ _ _ _ _ htr, hisha]
  obtain ⟨hS1, hS2⟩ := sin_sunset_angle_fine
  have h18 := sin_deg_enclosure 18 (by norm_num)
  have h17 := sin_deg_enclosure 17 (by norm_num)
  obtain ⟨f, hf⟩ := defined_latitude_m67_3937 18
    (midDay realMath (toJD solstice2000) 0 (resolveTz 0 "Libya")) Dir.ccw
    (le_trans (by norm_num) h18.1) (sin_deg_small 18 (by norm_num) (by norm_num)).2
  obtain ⟨s, hs⟩ := defined_latitude_m67_3937 0.833
    (midDay realMath (toJD solstice2000) 0 (resolveTz 0 "Libya")) Dir.ccw
    (by linarith) (by linarith)
  obtain ⟨i, hi⟩ := defined_latitude_m67_3937 17
    (midDay realMath (toJD solstice2000) 0 (resolveTz 0 "Libya")) Dir.cw
    (le_trans (by norm_num) h17.1) (sin_deg_small 17 (by norm_num) (by norm_num)).2
  obtain ⟨mg, a, hmg, ha, hmd, hma⟩ := maghrib_latitude_m67_3937
    (midDay realMath (toJD solstice2000) 0 (resolveTz 0 "Libya"))
  exact ⟨f, s, _, a, mg, i, hf, hs, rfl, ha, hmg, hi, hmd, hma⟩

/-! ### Latitude 80 on 2000-06-21 -/

/-- At latitude 80 on 2000-06-21 no depression angle between 0° and 20° is
reached: `angleTime` returns `null`. -/
theorem undefined_latitude_80 (angle md : ℝ) (dir : Dir) (h0 : 0 ≤ angle) (h1 : angle ≤ 20) :
    angleTime realMath (sunPos realMath (toJD solstice2000)).D 80 angle md dir = Val.null := by
  obtain ⟨hx1, hx2⟩ := sinDecl_solstice2000
  obtain ⟨hy1, hy2⟩ := cosDecl_solstice2000
  obtain ⟨hS0, hS1⟩ := sin_deg_small angle h0 h1
  have hA : 0.98 ≤ Real.sin (80 * (Real.pi / 180)) := by
    rw [sin_deg_complement 80]
    have e : (90 - 80 : ℝ) = 10 := by norm_num
    rw [e]
    exact le_trans (by norm_num) (cos_deg_enclosure 10 (by norm_num)).1
  have hB : 0 < Real.cos (80 * (Real.pi / 180)) ∧ Real.cos (80 * (Real.pi / 180)) ≤ 0.18 := by
    rw [cos_deg_complement 80]
    have e : (90 - 80 : ℝ) = 10 := by norm_num
    rw [e]
    obtain ⟨s1, s2⟩ := sin_deg_enclosure 10 (by norm_num)
    exact ⟨lt_of_lt_of_le (by norm_num) s1, le_trans s2 (by norm_num)⟩
  set X := sinDecl realMath (toJD solstice2000)
  set y := √(1 - X ^ 2)
  set A := Real.sin (80 * (Real.pi / 180))
  set B := Real.cos (80 * (Real.pi / 180))
  set S := Real.sin (angle * (Real.pi / 180))
  have hBy : B * y ≤ 0.17 :=
    le_trans (mul_le_mul hB.2 hy2 (by linarith) (by norm_num)) (by norm_num)
  have hBy0 : 0 < B * y := mul_pos hB.1 (by linarith)
  have hAX : 0.38 ≤ A * X :=
    le_trans (by norm_num) (mul_le_mul hA hx1 (by norm_num) (by linarith))
  apply angleTime_real_null (toJD solstice2000) 80 angle md dir hBy0.ne'
  show |B * y| < |-S - A * X|
  rw [abs_of_pos hBy0, abs_of_neg (by linarith)]
  linarith

/-! ## Claims -/

section ClaimsAngle

variable {α : Type} [LinearOrderedField α]

/-- C3: `angleTime` is total; it returns `null` exactly when `|cosH| > 1`
(an infinite quotient included); on a finite `cosH` with `|cosH| ≤ 1` it
returns `md − acos(cosH)·DEG/15` for `'ccw'` and `md + acos(cosH)·DEG/15`
for `'cw'`; a `NaN` quotient gives `NaN`; and `cosH` is the stated quotient
whenever its denominator is not zero. -/
theorem angleTime_spec (m : JSMath α) (decl lat angle md : α) :
    (∀ dir, angleTime m decl lat angle md dir = Val.null ↔ absGtOne (cosH m decl lat angle)) ∧
      (∀ c, cosH m decl lat angle = JSQuot.fin c → ¬ |c| > 1 →
        angleTime m decl lat angle md Dir.ccw = Val.num (md - m.acos c * DEG m / 15) ∧
          angleTime m decl lat angle md Dir.cw = Val.num (md + m.acos c * DEG m / 15)) ∧
      (cosH m decl lat angle = JSQuot.nan → ∀ dir, angleTime m decl lat angle md dir = Val.nan) ∧
      (m.cos (lat * RAD m) * m.cos (decl * RAD m) ≠ 0 →
        cosH m decl lat angle =
          JSQuot.fin ((-m.sin (angle * RAD m) - m.sin (lat * RAD m) * m.sin (decl * RAD m)) /
            (m.cos (lat * RAD m) * m.cos (decl * RAD m)))) := by
  refine ⟨fun dir => angleTime_null_iff m decl lat angle md dir, ?_, ?_, ?_⟩
  · intro c hq hc
    unfold angleTime
    rw [hq]
    simp [hc]
  · intro hq dir
    unfold angleTime
    rw [hq]
  · intro hden
    unfold cosH jsDiv
    rw [if_neg hden]

end ClaimsAngle

section Claims

variable {α : Type} [LinearOrderedField α] [FloorRing α]

/-- C8: on every finite value `h`, `toHHMM` is the zero-padded `HH:MM`
rendering of `T mod 1440` with `T = ⌊60·(h mod 24) + 1/2⌋`; the hour field is
in 0..23 and the minute field in 0..59; 5.999999 gives "06:00" and 23.9999
gives "00:00". -/
theorem toHHMM_finite (h : α) :
    toHHMM (Val.num h) = renderMinutes (minuteOfDay h) ∧
      0 ≤ minuteOfDay h / 60 ∧ minuteOfDay h / 60 ≤ 23 ∧
      0 ≤ minuteOfDay h % 60 ∧ minuteOfDay h % 60 ≤ 59 ∧
      toHHMM (Val.num (5.999999 : α)) = "06:00" ∧
      toHHMM (Val.num (23.9999 : α)) = "00:00" := by
  obtain ⟨h0, h1⟩ := minuteOfDay_bounds h
  refine ⟨toHHMM_num h, by omega, by omega, by omega, by omega, ?_, ?_⟩
  · have : minuteOfDay (5.999999 : α) = 360 := by
      simp only [minuteOfDay, mod24]; norm_num
    rw [toHHMM_num, this]; decide
  · have : minuteOfDay (23.9999 : α) = 0 := by
      simp only [minuteOfDay, mod24]; norm_num
    rw [toHHMM_num, this]; decide

/-- C1 (as stated, refuted): the undefined markers `null` and `NaN` format to
the same string as the numeric hour value 0 (midnight). -/
theorem toHHMM_null_eq_midnight :
    toHHMM (Val.null : Val ℚ) = toHHMM (Val.num (0 : ℚ)) ∧
      toHHMM (Val.nan : Val ℚ) = toHHMM (Val.num (0 : ℚ)) := by
  have : minuteOfDay (0 : ℚ) = 0 := by
    simp only [minuteOfDay, mod24]; norm_num
  rw [toHHMM_num, this]
  decide

/-- C1 (amended): `toHHMM` maps `null` and `NaN` to "00:00", which is also
`toHHMM(0)`; accordingly each field of `calculate` is "00:00" when its value
is undefined and the `HH:MM` rendering of the value otherwise.  At latitude
80 on 2000-06-21 Fajr and Isha are `null` and are reported as "00:00". -/
theorem toHHMM_undefined_is_midnight (m : JSMath α) (hostOffsetMin : α) (date : JSDate)
    (lat lon : α) (methodNum : Option ℤ) (countryEn : String) :
    toHHMM (Val.null : Val α) = "00:00" ∧ toHHMM (Val.nan : Val α) = "00:00" ∧
      toHHMM (Val.num (0 : α)) = "00:00" ∧
      (calculate m hostOffsetMin date lat lon methodNum countryEn).Fajr =
        (match (calcRaw m hostOffsetMin date lat lon methodNum countryEn).fajr with
          | Val.null => "00:00"
          | Val.nan => "00:00"
          | Val.num h => renderMinutes (minuteOfDay h)) ∧
      (calculate m hostOffsetMin date lat lon methodNum countryEn).Sunrise =
        (match (calcRaw m hostOffsetMin date lat lon methodNum countryEn).sunrise with
          | Val.null => "00:00"
          | Val.nan => "00:00"
          | Val.num h => renderMinutes (minuteOfDay h)) ∧
      (calculate m hostOffsetMin date lat lon methodNum countryEn).Dhuhr =
        (match (calcRaw m hostOffsetMin date lat lon methodNum countryEn).dhuhr with
          | Val.null => "00:00"
          | Val.nan => "00:00"
          | Val.num h => renderMinutes (minuteOfDay h)) ∧
      (calculate m hostOffsetMin date lat lon methodNum countryEn).Asr =
        (match (calcRaw m hostOffsetMin date lat lon methodNum countryEn).asr with
          | Val.null => "00:00"
          | Val.nan => "00:00"
          | Val.num h => renderMinutes (minuteOfDay h)) ∧
      (calculate m hostOffsetMin date lat lon methodNum countryEn).Maghrib =
        (match (calcRaw m hostOffsetMin date lat lon methodNum countryEn).maghrib with
          | Val.null => "00:00"
          | Val.nan => "00:00"
          | Val.num h => renderMinutes (minuteOfDay h)) ∧
      (calculate m hostOffsetMin date lat lon methodNum countryEn).Isha =
        (match (calcRaw m hostOffsetMin date lat lon methodNum countryEn).isha with
          | Val.null => "00:00"
          | Val.nan => "00:00"
          | Val.num h => renderMinutes (minuteOfDay h)) ∧
      (calcRaw realMath 0 solstice2000 80 0 (some 5) "Libya").fajr = Val.null ∧
      (calcRaw realMath 0 solstice2000 80 0 (some 5) "Libya").isha = Val.null ∧
      (calculate realMath 0 solstice2000 80 0 (some 5) "Libya").Fajr = "00:00" ∧
      (calculate realMath 0 solstice2000 80 0 (some 5) "Libya").Isha = "00:00" := by
  have hpolar : (calcRaw realMath 0 solstice2000 80 0 (some 5) "Libya").fajr = Val.null ∧
      (calcRaw realMath 0 solstice2000 80 0 (some 5) "Libya").isha = Val.null := by
    simp only [calcRaw, rawTimes]
    have hfajr : (resolveMethod (some 5) : Method ℝ).fajr = 19.5 := rfl
    have hisha : toNumber (resolveMethod (some 5) : Method ℝ).isha = 17.5 := rfl
    have htr : truthy (resolveMethod (some 5) : Method ℝ).ishaMin = false := rfl
    rw [hfajr, ishaOf_angle _ _ _ _ _ _ htr, hisha]
    exact ⟨undefined_latitude_80 19.5 _ _ (by norm_num) (by norm_num),
      undefined_latitude_80 17.5 _ _ (by norm_num) (by norm_num)⟩
  refine ⟨rfl, rfl, ?_, ?_, ?_, ?_, ?_, ?_, ?_, hpolar.1, hpolar.2, ?_, ?_⟩
  · have : minuteOfDay (0 : α) = 0 := by
      simp only [minuteOfDay, mod24]; norm_num
    rw [toHHMM_num, this]; decide
  · simp only [calculate, formatTimes]
    cases (calcRaw m hostOffsetMin date lat lon methodNum countryEn).fajr with
    | null => rfl
    | nan => rfl
    | num h => exact toHHMM_num h
  · simp only [calculate, formatTimes]
    cases (calcRaw m hostOffsetMin date lat lon methodNum countryEn).sunrise with
    | null => rfl
    | nan => rfl
    | num h => exact toHHMM_num h
  · simp only [calculate, formatTimes]
    cases (calcRaw m hostOffsetMin date lat lon methodNum countryEn).dhuhr with
    | null => rfl
    | nan => rfl
    | num h => exact toHHMM_num h
  · simp only [calculate, formatTimes]
    cases (calcRaw m hostOffsetMin date lat lon methodNum countryEn).asr with
    | null => rfl
    | nan => rfl
    | num h => exact toHHMM_num h
  · simp only [calculate, formatTimes]
    cases (calcRaw m hostOffsetMin date lat lon methodNum countryEn).maghrib with
    | null => rfl
    | nan => rfl
    | num h => exact toHHMM_num h
  · simp only [calculate, formatTimes]
    cases (calcRaw m hostOffsetMin date lat lon methodNum countryEn).isha with
    | null => rfl
    | nan => rfl
    | num h => exact toHHMM_num h
  · simp only [calculate, formatTimes]
    rw [hpolar.1]
    rfl
  · simp only [calculate, formatTimes]
    rw [hpolar.2]
    rfl

/-- C4: for a method identifier that is missing or not a key of `METHODS`,
`calculate` returns the six strings it returns for method 5, whose entry is
Fajr 19.5°, Isha 17.5°. -/
theorem calculate_unknown_method (m : JSMath α) (hostOffsetMin : α) (date : JSDate)
    (lat lon : α) (countryEn : String) (methodNum : Option ℤ)
    (hk : ∀ k, methodNum = some k → k ∉ methodKeys) :
    calculate m hostOffsetMin date lat lon methodNum countryEn =
        calculate m hostOffsetMin date lat lon (some 5) countryEn ∧
      (resolveMethod (some 5) : Method α).fajr = 19.5 ∧
      (resolveMethod (some 5) : Method α).isha = some 17.5 ∧
      (resolveMethod (some 5) : Method α).ishaMin = none := by
  have hres : (resolveMethod methodNum : Method α) = resolveMethod (some 5) := by
    cases methodNum with
    | none => rfl
    | some k =>
      have hk1 := hk k rfl
      simp only [methodKeys, List.mem_cons, List.mem_singleton, not_or, List.mem_nil_iff,
        or_false] at hk1
      obtain ⟨h1, h2, h3, h4, h5, h7, h8, h9, h10, h11, h12, h13⟩ := hk1
      have : (METHODS k : Option (Method α)) = none := by
        unfold METHODS
        split <;> first | rfl | omega
      simp only [resolveMethod, this, Option.getD_none]
      rfl
  refine ⟨?_, rfl, rfl, rfl⟩
  simp only [calculate, calcRaw, hres]

/-- C4, instance: the identifier 6 on 2024-03-21 at latitude 30, longitude
31.2, country Libya. -/
theorem calculate_unknown_method_witness :
    (∀ k, (some 6 : Option ℤ) = some k → k ∉ methodKeys) ∧
      (calculate realMath 0 ⟨2024, 2, 21⟩ 30 31.2 (some 6) "Libya" =
          calculate realMath 0 ⟨2024, 2, 21⟩ 30 31.2 (some 5) "Libya" ∧
        (resolveMethod (some 5) : Method ℝ).fajr = 19.5 ∧
        (resolveMethod (some 5) : Method ℝ).isha = some 17.5 ∧
        (resolveMethod (some 5) : Method ℝ).ishaMin = none) :=
  ⟨by intro k hk; cases hk; decide,
    calculate_unknown_method realMath 0 ⟨2024, 2, 21⟩ 30 31.2 "Libya" (some 6)
      (by intro k hk; cases hk; decide)⟩

/-- C5: the offset used by `calculate` is `-(getTimezoneOffset()/60)` of the
host when the country is absent from `COUNTRY_TZ` or mapped to `null` (Egypt,
Jordan, Lebanon, Palestine, Syria, Morocco), and the table's fixed offset,
whatever the host offset, for every other entry (Saudi Arabia 3, United Arab
Emirates 4, Algeria 1, Libya 2). -/
theorem resolveTz_spec (m : JSMath α) (hostOffsetMin : α) (date : JSDate)
    (lat lon : α) (methodNum : Option ℤ) (countryEn : String) :
    calculate m hostOffsetMin date lat lon methodNum countryEn =
        formatTimes (rawTimes m date lat lon (resolveMethod methodNum)
          (resolveTz hostOffsetMin countryEn)) ∧
      ((COUNTRY_TZ countryEn : Option (Option α)) = none ∨
          (COUNTRY_TZ countryEn : Option (Option α)) = some none →
        resolveTz hostOffsetMin countryEn = -(hostOffsetMin / 60)) ∧
      (∀ z : α, COUNTRY_TZ countryEn = some (some z) →
        ∀ host2 : α, resolveTz host2 countryEn = z) ∧
      ((COUNTRY_TZ countryEn : Option (Option α)) = some none ↔
        countryEn ∈ ["Egypt", "Jordan", "Lebanon", "Palestine", "Syria", "Morocco"]) ∧
      resolveTz hostOffsetMin "Saudi Arabia" = 3 ∧
      resolveTz hostOffsetMin "United Arab Emirates" = 4 ∧
      resolveTz hostOffsetMin "Algeria" = 1 ∧
      resolveTz hostOffsetMin "Libya" = 2 := by
  refine ⟨rfl, ?_, ?_, ?_, ?_, ?_, ?_, ?_⟩
  · rintro (h | h) <;> simp [resolveTz, h]
  · intro z hz host2
    simp [resolveTz, hz]
  · exact COUNTRY_TZ_null_iff countryEn
  · simp [resolveTz, COUNTRY_TZ]
  · simp [resolveTz, COUNTRY_TZ]
  · simp [resolveTz, COUNTRY_TZ]
  · simp [resolveTz, COUNTRY_TZ]

/-- C6 (as stated, refuted): 2100-03-01 and 1900-02-28 are valid Gregorian
dates; `toJD` returns 2488129.5 and 2415077.5 for them, and the standard
conversion gives 2488128.5 and 2415078.5. -/
theorem toJD_off_by_one_outside_1900_2100 :
    (validDate ⟨2100, 2, 1⟩ ∧ (toJD ⟨2100, 2, 1⟩ : ℚ) = 2488129.5 ∧
      (standardJD ⟨2100, 2, 1⟩ : ℚ) = 2488128.5 ∧
      (toJD ⟨2100, 2, 1⟩ : ℚ) ≠ standardJD ⟨2100, 2, 1⟩) ∧
    (validDate ⟨1900, 1, 28⟩ ∧ (toJD ⟨1900, 1, 28⟩ : ℚ) = 2415077.5 ∧
      (standardJD ⟨1900, 1, 28⟩ : ℚ) = 2415078.5 ∧
      (toJD ⟨1900, 1, 28⟩ : ℚ) ≠ standardJD ⟨1900, 1, 28⟩) := by
  refine ⟨⟨by decide, ?_, ?_, ?_⟩, ⟨by decide, ?_, ?_, ?_⟩⟩
  · rw [toJD_eq_int]; norm_num
  · simp [standardJD, gregorianJDN]; norm_num
  · rw [toJD_eq_int]; simp [standardJD, gregorianJDN]; norm_num
  · rw [toJD_eq_int]; norm_num
  · simp [standardJD, gregorianJDN]; norm_num
  · rw [toJD_eq_int]; simp [standardJD, gregorianJDN]; norm_num

/-- C6 (amended): for every valid Gregorian date from 1900-03-01 to 2100-02-28
`toJD` returns exactly the Julian Day of 00:00 of that date given by the
standard conversion, and `toJD(2000-01-01) = 2451544.5`. -/
theorem toJD_standard_1900_2100 (dt : JSDate) (hv : validDate dt)
    (hlo : 19000301 ≤ dateKey dt) (hhi : dateKey dt ≤ 21000228) :
    (toJD dt : α) = standardJD dt ∧ (toJD ⟨2000, 0, 1⟩ : α) = 2451544.5 := by
  obtain ⟨hm0, hm1, hd0, hd1⟩ := hv
  have hd2 := daysInMonth_le dt.fullYear (dt.month + 1)
  unfold dateKey at hlo hhi
  constructor
  · rw [toJD_eq_int, standardJD,
      ← toJD_int_standard dt.fullYear (dt.month + 1) dt.date (by omega) (by omega) hd0
        (by omega) hlo hhi]
    push_cast
    ring
  · rw [toJD_eq_int]; norm_num

/-- C6 (amended), instance: the date 2024-03-21. -/
theorem toJD_standard_1900_2100_witness :
    validDate ⟨2024, 2, 21⟩ ∧ 19000301 ≤ dateKey ⟨2024, 2, 21⟩ ∧
      dateKey ⟨2024, 2, 21⟩ ≤ 21000228 ∧
      ((toJD ⟨2024, 2, 21⟩ : ℚ) = standardJD ⟨2024, 2, 21⟩ ∧
        (toJD ⟨2000, 0, 1⟩ : ℚ) = 2451544.5) :=
  ⟨by decide, by decide, by decide,
    toJD_standard_1900_2100 ⟨2024, 2, 21⟩ (by decide) (by decide) (by decide)⟩

end Claims

/-! ## Claims over the real numbers -/

/-- C2 (the code at the failing input): for the offset methods 4, 8 and 10
Isha is Maghrib + 90/60 whenever Maghrib is a number; but on 2000-06-21 at
latitude 66.2 with method 4, Maghrib is `null` and the Isha value is
nevertheless a number. -/
theorem isha_from_undefined_maghrib :
    (∀ (k : ℤ) (hostOffsetMin : ℝ) (date : JSDate) (lat lon : ℝ) (countryEn : String) (x : ℝ),
      k ∈ [4, 8, 10] →
      (calcRaw realMath hostOffsetMin date lat lon (some k) countryEn).maghrib = Val.num x →
      (calcRaw realMath hostOffsetMin date lat lon (some k) countryEn).isha
        = Val.num (x + 90 / 60)) ∧
    (calcRaw realMath 0 solstice2000 66.2 0 (some 4) "Saudi Arabia").maghrib = Val.null ∧
      ∃ x, (calcRaw realMath 0 solstice2000 66.2 0 (some 4) "Saudi Arabia").isha = Val.num x := by
  refine ⟨?_, ?_⟩
  · intro k hostOffsetMin date lat lon countryEn x hk hmg
    simp only [calcRaw, rawTimes] at hmg ⊢
    have htr : truthy (resolveMethod (some k) : Method ℝ).ishaMin = true ∧
        toNumber (resolveMethod (some k) : Method ℝ).ishaMin = 90 := by
      simp only [List.mem_cons, List.mem_singleton, List.mem_nil_iff, or_false] at hk
      rcases hk with rfl | rfl | rfl <;>
        simp [resolveMethod, METHODS, truthy, toNumber]
    rw [hmg, ishaOf_offset_num _ _ _ _ _ _ htr.1, htr.2]
  · simp only [calcRaw, rawTimes]
    refine ⟨maghrib_latitude_66_2 _, ?_⟩
    rw [maghrib_latitude_66_2, ishaOf_null]
    have : toNumber (resolveMethod (some 4) : Method ℝ).isha = 0 := rfl
    rw [this]
    exact isha_latitude_66_2 _

/-- C7 (as stated, refuted): on 2000-06-21 with method 1 the six values are
all numbers at latitude −66.46 and at latitude −67.3937; at the first Asr is
not later than Dhuhr, at the second Maghrib is later neither than Dhuhr nor
than Asr.  In both cases they are not strictly increasing. -/
theorem monotonicity_fails_near_polar_circle :
    ((-90 : ℝ) < -66.46 ∧ (-66.46 : ℝ) < 90 ∧
      ∃ f s d a mg i : ℝ,
        (calcRaw realMath 0 solstice2000 (-66.46) 0 (some 1) "Libya").fajr = Val.num f ∧
        (calcRaw realMath 0 solstice2000 (-66.46) 0 (some 1) "Libya").sunrise = Val.num s ∧
        (calcRaw realMath 0 solstice2000 (-66.46) 0 (some 1) "Libya").dhuhr = Val.num d ∧
        (calcRaw realMath 0 solstice2000 (-66.46) 0 (some 1) "Libya").asr = Val.num a ∧
        (calcRaw realMath 0 solstice2000 (-66.46) 0 (some 1) "Libya").maghrib = Val.num mg ∧
        (calcRaw realMath 0 solstice2000 (-66.46) 0 (some 1) "Libya").isha = Val.num i ∧
        a ≤ d ∧ ¬ (f < s ∧ s < d ∧ d < a ∧ a < mg ∧ mg < i)) ∧
    ((-90 : ℝ) < -67.3937 ∧ (-67.3937 : ℝ) < 90 ∧
      ∃ f s d a mg i : ℝ,
        (calcRaw realMath 0 solstice2000 (-67.3937) 0 (some 1) "Libya").fajr = Val.num f ∧
        (calcRaw realMath 0 solstice2000 (-67.3937) 0 (some 1) "Libya").sunrise = Val.num s ∧
        (calcRaw realMath 0 solstice2000 (-67.3937) 0 (some 1) "Libya").dhuhr = Val.num d ∧
        (calcRaw realMath 0 solstice2000 (-67.3937) 0 (some 1) "Libya").asr = Val.num a ∧
        (calcRaw realMath 0 solstice2000 (-67.3937) 0 (some 1) "Libya").maghrib = Val.num mg ∧
        (calcRaw realMath 0 solstice2000 (-67.3937) 0 (some 1) "Libya").isha = Val.num i ∧
        mg ≤ d ∧ mg ≤ a ∧ ¬ (f < s ∧ s < d ∧ d < a ∧ a < mg ∧ mg < i)) := by
  refine ⟨⟨by norm_num, by norm_num, ?_⟩, ⟨by norm_num, by norm_num, ?_⟩⟩
  · obtain ⟨f, s, d, a, mg, i, hf, hs, hd, ha, hmg, hi, hle⟩ := asr_before_dhuhr
    exact ⟨f, s, d, a, mg, i, hf, hs, hd, ha, hmg, hi, hle,
      fun h => absurd h.2.2.1 (not_lt.mpr hle)⟩
  · obtain ⟨f, s, d, a, mg, i, hf, hs, hd, ha, hmg, hi, hle1, hle2⟩ := maghrib_before_dhuhr
    exact ⟨f, s, d, a, mg, i, hf, hs, hd, ha, hmg, hi, hle1, hle2,
      fun h => absurd h.2.2.2.1 (not_lt.mpr hle2)⟩

/-- C7 (amended): at every latitude in (−90, 90), when the six values are
numbers, Fajr < Sunrise < Dhuhr, Maghrib < Isha, and Asr and
Maghrib are not before solar noon (Dhuhr − 0.0333). -/
theorem order_of_defined_times (hostOffsetMin : ℝ) (date : JSDate) (lat lon : ℝ)
    (methodNum : Option ℤ) (countryEn : String) (hlat1 : -90 < lat) (hlat2 : lat < 90)
    (f s d a mg i : ℝ)
    (hf : (calcRaw realMath hostOffsetMin date lat lon methodNum countryEn).fajr = Val.num f)
    (hs : (calcRaw realMath hostOffsetMin date lat lon methodNum countryEn).sunrise = Val.num s)
    (hd : (calcRaw realMath hostOffsetMin date lat lon methodNum countryEn).dhuhr = Val.num d)
    (ha : (calcRaw realMath hostOffsetMin date lat lon methodNum countryEn).asr = Val.num a)
    (hmg : (calcRaw realMath hostOffsetMin date lat lon methodNum countryEn).maghrib = Val.num mg)
    (hi : (calcRaw realMath hostOffsetMin date lat lon methodNum countryEn).isha = Val.num i) :
    f < s ∧ s < d ∧ d - 0.0333 ≤ a ∧ d - 0.0333 ≤ mg ∧ mg < i := by
  simp only [calcRaw, rawTimes] at hf hs hd ha hmg hi
  obtain ⟨hfa1, hfa2, hcases⟩ := resolveMethod_real methodNum
  have hpi := Real.pi_pos
  have hscale : ∀ c : ℝ, 0 ≤ Real.arccos c * (180 / Real.pi) / 15 := fun c =>
    div_nonneg (mul_nonneg (Real.arccos_nonneg c) (by positivity)) (by norm_num)
  have hd' : d = midDay realMath (toJD date) lon (resolveTz hostOffsetMin countryEn) + 0.0333 :=
    (Val.num.inj hd).symm
  have hB : 0 < Real.cos (lat * (Real.pi / 180)) := by
    apply Real.cos_pos_of_mem_Ioo
    constructor
    · have : (-90 : ℝ) * (Real.pi / 180) < lat * (Real.pi / 180) :=
        mul_lt_mul_of_pos_right hlat1 (by positivity)
      linarith
    · have : lat * (Real.pi / 180) < 90 * (Real.pi / 180) :=
        mul_lt_mul_of_pos_right hlat2 (by positivity)
      linarith
  obtain ⟨hden, hcs, hsv⟩ := angleTime_real_inv _ _ _ _ _ _ hs
  obtain ⟨-, hcf, hfv⟩ := angleTime_real_inv _ _ _ _ _ _ hf
  obtain ⟨-, hcm, hmv⟩ := angleTime_real_inv _ _ _ _ _ _ hmg
  unfold asrTime at ha
  obtain ⟨-, -, hav⟩ := angleTime_real_inv _ _ _ _ _ _ ha
  have hden0 : 0 < Real.cos (lat * (Real.pi / 180)) * √(1 - sinDecl realMath (toJD date) ^ 2) :=
    lt_of_le_of_ne (mul_nonneg hB.le (Real.sqrt_nonneg _)) (Ne.symm hden)
  simp only [if_true, if_neg (by decide : ¬ Dir.cw = Dir.ccw)] at hsv hfv hmv hav
  have hfs := hour_angle_lt _ _ _ _ 0.833 _ hden0 (by norm_num) hfa1 hfa2 hcs hcf
  have hs0 := hscale ((-Real.sin (0.833 * (Real.pi / 180))
      - Real.sin (lat * (Real.pi / 180)) * sinDecl realMath (toJD date)) /
      (Real.cos (lat * (Real.pi / 180)) * √(1 - sinDecl realMath (toJD date) ^ 2)))
  have ha0 := hscale ((-Real.sin (asrAngle realMath (sunPos realMath (toJD date)).D lat 1
        * (Real.pi / 180))
      - Real.sin (lat * (Real.pi / 180)) * sinDecl realMath (toJD date)) /
      (Real.cos (lat * (Real.pi / 180)) * √(1 - sinDecl realMath (toJD date) ^ 2)))
  refine ⟨by linarith, by linarith, by linarith, by linarith, ?_⟩
  rcases hcases with ⟨htr, hmin⟩ | ⟨htr, hia1, hia2⟩
  · rw [hmg, ishaOf_offset_num _ _ _ _ _ _ htr, hmin] at hi
    have : i = mg + 90 / 60 := (Val.num.inj hi).symm
    rw [this]
    norm_num
  · rw [ishaOf_angle _ _ _ _ _ _ htr] at hi
    obtain ⟨-, hci, hiv⟩ := angleTime_real_inv _ _ _ _ _ _ hi
    simp only [if_neg (by decide : ¬ Dir.cw = Dir.ccw)] at hiv
    have hmi := hour_angle_lt _ _ _ _ 0.833 _ hden0 (by norm_num) hia1 hia2 hcm hci
    linarith


/-- C7 (amended), instance: 2000-06-21, latitude −66.46, method 1. -/
theorem order_of_defined_times_witness :
    ∃ f s d a mg i : ℝ,
      ((calcRaw realMath 0 solstice2000 (-66.46) 0 (some 1) "Libya").fajr = Val.num f ∧
        (calcRaw realMath 0 solstice2000 (-66.46) 0 (some 1) "Libya").sunrise = Val.num s ∧
        (calcRaw realMath 0 solstice2000 (-66.46) 0 (some 1) "Libya").dhuhr = Val.num d ∧
        (calcRaw realMath 0 solstice2000 (-66.46) 0 (some 1) "Libya").asr = Val.num a ∧
        (calcRaw realMath 0 solstice2000 (-66.46) 0 (some 1) "Libya").maghrib = Val.num mg ∧
        (calcRaw realMath 0 solstice2000 (-66.46) 0 (some 1) "Libya").isha = Val.num i) ∧
      (f < s ∧ s < d ∧ d - 0.0333 ≤ a ∧ d - 0.0333 ≤ mg ∧ mg < i) := by
  obtain ⟨f, s, d, a, mg, i, hf, hs, hd, ha, hmg, hi, -⟩ := asr_before_dhuhr
  exact ⟨f, s, d, a, mg, i, ⟨hf, hs, hd, ha, hmg, hi⟩,
    order_of_defined_times 0 solstice2000 (-66.46) 0 (some 1) "Libya" (by norm_num)
      (by norm_num) f s d a mg i hf hs hd ha hmg hi⟩

/-- C9 (as stated, refuted): latitude 180 is outside [−90, 90], and on
2000-06-21 `calculate` computes a numeric Sunrise from it. -/
theorem latitude_180_gives_numeric_sunrise :
    ¬ ((-90 : ℝ) ≤ 180 ∧ (180 : ℝ) ≤ 90) ∧
      ∃ s, (calcRaw realMath 0 solstice2000 180 0 (some 5) "Libya").sunrise = Val.num s := by
  refine ⟨by norm_num, ?_⟩
  simp only [calcRaw, rawTimes]
  exact sunrise_latitude_180 _

/-- C9 (amended): `calculate` does not validate the latitude.  For every
latitude, in or out of [−90, 90], each of Fajr, Sunrise, Asr and Maghrib is
`null` exactly when `|cosH| > 1` for its angle; for a method with an Isha
angle (no `ishaMin`), Isha is `null` exactly when `|cosH| > 1` for that
angle; for a method with `ishaMin`, Isha is Maghrib + `ishaMin`/60 whenever
Maghrib is a number. -/
theorem latitude_not_validated {α : Type} [LinearOrderedField α] [FloorRing α]
    (m : JSMath α) (hostOffsetMin : α) (date : JSDate)
    (lat lon : α) (methodNum : Option ℤ) (countryEn : String) :
    ((calcRaw m hostOffsetMin date lat lon methodNum countryEn).fajr = Val.null ↔
        absGtOne (cosH m (sunPos m (toJD date)).D lat (resolveMethod methodNum).fajr)) ∧
      ((calcRaw m hostOffsetMin date lat lon methodNum countryEn).sunrise = Val.null ↔
        absGtOne (cosH m (sunPos m (toJD date)).D lat 0.833)) ∧
      ((calcRaw m hostOffsetMin date lat lon methodNum countryEn).asr = Val.null ↔
        absGtOne (cosH m (sunPos m (toJD date)).D lat
          (asrAngle m (sunPos m (toJD date)).D lat 1))) ∧
      ((calcRaw m hostOffsetMin date lat lon methodNum countryEn).maghrib = Val.null ↔
        absGtOne (cosH m (sunPos m (toJD date)).D lat 0.833)) ∧
      (truthy (resolveMethod methodNum : Method α).ishaMin = false →
        ((calcRaw m hostOffsetMin date lat lon methodNum countryEn).isha = Val.null ↔
          absGtOne (cosH m (sunPos m (toJD date)).D lat
            (toNumber (resolveMethod methodNum : Method α).isha)))) ∧
      (truthy (resolveMethod methodNum : Method α).ishaMin = true →
        ∀ x, (calcRaw m hostOffsetMin date lat lon methodNum countryEn).maghrib = Val.num x →
          (calcRaw m hostOffsetMin date lat lon methodNum countryEn).isha =
            Val.num (x + toNumber (resolveMethod methodNum : Method α).ishaMin / 60)) := by
  simp only [calcRaw, rawTimes, asrTime]
  refine ⟨angleTime_null_iff _ _ _ _ _ _, angleTime_null_iff _ _ _ _ _ _,
    angleTime_null_iff _ _ _ _ _ _, angleTime_null_iff _ _ _ _ _ _, ?_, ?_⟩
  · intro htr
    rw [ishaOf_angle _ _ _ _ _ _ htr]
    exact angleTime_null_iff _ _ _ _ _ _
  · intro htr x hmg
    rw [hmg, ishaOf_offset_num _ _ _ _ _ _ htr]

/-- C10 (as stated, refuted): for 2024-03-21, latitude 30.0, longitude 31.2,
offset +2 (Libya) and method 5, the Dhuhr string of `calculate` is none of
"11:57", "11:58", "11:59". -/
theorem dhuhr_equinox2024_not_in_range :
    (calculate realMath 0 equinox2024 30.0 31.2 (some 5) "Libya").Dhuhr ∉
      ["11:57", "11:58", "11:59"] := by
  have h : (calculate realMath 0 equinox2024 30.0 31.2 (some 5) "Libya").Dhuhr = "12:04" := by
    have htz : resolveTz (0 : ℝ) "Libya" = 2 := by simp [resolveTz, COUNTRY_TZ]
    simp only [calculate, formatTimes, calcRaw, rawTimes, htz]
    exact toHHMM_dhuhr_equinox2024
  rw [h]
  decide

/-- C10 (amended): for 2024-03-21, latitude 30.0, longitude 31.2, resolved
offset +2 (the fixed offset of Libya, or a device offset of +2 for Egypt) and
method 5, `calculate` returns the Dhuhr string "12:04", where Dhuhr is
`toHHMM(midday + 0.0333)` and `midday = 12 − EqT − longitude/15 + utcOffset`
with `EqT` from `sunPos(toJD(date))`. -/
theorem dhuhr_equinox2024 (hostOffsetMin : ℝ) :
    (calculate realMath hostOffsetMin equinox2024 30.0 31.2 (some 5) "Libya").Dhuhr = "12:04" ∧
      (calculate realMath (-120) equinox2024 30.0 31.2 (some 5) "Egypt").Dhuhr = "12:04" ∧
      (calculate realMath hostOffsetMin equinox2024 30.0 31.2 (some 5) "Libya").Dhuhr =
        toHHMM (Val.num (midDay realMath (toJD equinox2024) 31.2 2 + 0.0333)) ∧
      midDay realMath (toJD equinox2024) 31.2 2 =
        12 - (sunPos realMath (toJD equinox2024)).EqT - 31.2 / 15 + 2 := by
  have htz : resolveTz hostOffsetMin "Libya" = 2 := by simp [resolveTz, COUNTRY_TZ]
  have htz2 : resolveTz (-120 : ℝ) "Egypt" = 2 := by
    simp [resolveTz, COUNTRY_TZ]; norm_num
  refine ⟨?_, ?_, ?_, rfl⟩
  · simp only [calculate, formatTimes, calcRaw, rawTimes, htz]
    exact toHHMM_dhuhr_equinox2024
  · simp only [calculate, formatTimes, calcRaw, rawTimes, htz2]
    exact toHHMM_dhuhr_equinox2024
  · simp only [calculate, formatTimes, calcRaw, rawTimes, htz]

end PrayerCalc
